import Mathlib

/-!
# Event reporters of the reaper (`events.go`)

A shallow embedding of the three `EventReporter` implementations of `events.go`
(`NoEventReporter`, `Tagger`, `DataDog`), of the two message templates and of the part of
`text/template` execution they exercise, followed by theorems about them.

Every effect the Go code has on the outside (log lines, construction of the godspeed client,
method calls on the client, calls of the resource's own lifecycle methods) is appended to a
`World`, the list of effects so far, oldest first.  The outside itself (the godspeed library,
the link builders, the lifecycle methods of the resources, the text in which `text/template`
wraps the error of a called function) is a parameter.
-/

namespace Reaper

/-! ## Data declared outside `events.go` -/

/-- Modelled from the spec: the type of `ReaperState` is declared outside this file; the spec
calls it an opaque ordered state machine, so a state is carried as its rank in that order. -/
structure ReaperState where
  rank : Nat
deriving DecidableEq, Repr

/-- Modelled from the spec: the resource object `Instance` is declared outside this file.  Its
members are the ones `events.go` and its instance template read; each printed member is carried
as the text that `text/template` prints for it (`State` is `.Instance.State.String`,
`PublicIPAddress` is `.Instance.PublicIPAddress.String`). -/
structure Instance where
  ID : String
  Name : String
  Region : String
  AWSConsoleURL : String
  Owned : Bool
  Owner : String
  State : String
  InstanceType : String
  PublicIPAddress : String
  ReaperState : ReaperState
deriving DecidableEq, Repr

/-- Modelled from the spec: the resource object `AutoScalingGroup` is declared outside this
file; its members are the ones `events.go` and its ASG template read. -/
structure AutoScalingGroup where
  ID : String
  Region : String
  AWSConsoleURL : String
  Owned : Bool
  Owner : String
  ReaperState : ReaperState
deriving DecidableEq, Repr

/-- Modelled from the spec: the configuration object behind the global `Conf` is declared
outside this file; the templates read its `TokenSecret` and `HTTPApiURL`. -/
structure Config where
  TokenSecret : String
  HTTPApiURL : String
deriving DecidableEq, Repr

/-- A link builder takes `(secretToken, apiBaseURL, region, resourceID)` and returns the URL, or
an error, which aborts the template execution that called it. -/
abbrev LinkBuilder := String → String → String → String → Except String String

/-- The functions that `funcMap` binds by name; all five are declared outside this file. -/
structure FuncMap where
  MakeTerminateLink : LinkBuilder
  MakeIgnoreLink : LinkBuilder
  MakeWhitelistLink : LinkBuilder
  MakeStopLink : LinkBuilder
  MakeForceStopLink : LinkBuilder

/-- The lifecycle methods of a resource, declared outside this file: `incrementState` returns
the `updated` flag and the resource as it is afterwards, `UpdateReaperState` the resource as it
is after persisting the given state, `String` the text of a state. -/
structure ResourceOps (R : Type) where
  incrementState : R → Bool × R
  UpdateReaperState : R → ReaperState → R
  String : ReaperState → String

/-! ## Effects -/

/-- The identity of a `*godspeed.Godspeed` that `godspeed.NewDefault` returned. -/
abbrev Handle := Nat

/-- A `float64`, carried as its 64-bit pattern; `events.go` only passes it on. -/
structure Float64 where
  bits : Nat
deriving DecidableEq, Repr

/-- The three client methods `events.go` calls, with their arguments; `none` is a `nil` map or
slice. -/
inductive Op where
  | Event (title text : String) (fields : Option (List (String × String)))
      (tags : Option (List String))
  | Gauge (name : String) (value : Float64) (tags : Option (List String))
  | Incr (name : String) (tags : Option (List String))
deriving DecidableEq, Repr

/-- One effect on the outside. `call g op` is the method call `g.op(...)` on the receiver `g`,
where `none` is the `nil` pointer. -/
inductive Effect where
  | logInfo (msg : String) (args : List String)
  | logDebug (msg : String) (args : List String)
  | NewDefault
  | call (g : Option Handle) (op : Op)
  | incrementState (id : String)
  | UpdateReaperState (id : String) (state : ReaperState)
deriving DecidableEq, Repr

/-- The effects so far, oldest first. -/
abbrev World := List Effect

/-- How a method call on the client ends: it returns its `error` (`none` is `nil`), or the
goroutine panics inside it. -/
inductive CallResult where
  | returned (err : Option String)
  | panicked
deriving DecidableEq, Repr

/-- The godspeed library, as far as `events.go` uses it.  Both members may depend on everything
that happened before.  `call` is also asked about the `nil` receiver, on which the Go code may
invoke a method as well. -/
structure Client where
  NewDefault : World → Except String Handle
  call : World → Option Handle → Op → CallResult

/-! ## `text/template`, as far as the two templates use it -/

/-- Where an action stands in the text of a template: the line (from 1) and the byte column in
that line (from 0) of its first token, and the text of its command. -/
structure Site where
  line : Nat
  col : Nat
  text : String
deriving DecidableEq, Repr

/-- The part of `text/template` that is taken as given.  When a function called by an action
returns an error, `Execute` does not return that error but one of its own that wraps it, and
whose text depends on the version of the library (older versions cut the command text short):
`execError name site err` is the error `Execute` returns for the template named `name` when
the command at `site` returned `err`. -/
structure TextTemplate where
  execError : String → Site → String → String

/-- A node without children: literal text, or an action whose value is printed. -/
inductive Item (D : Type) where
  | text (s : String)
  | action (site : Site) (eval : FuncMap → D → Except String String)

/-- A node of a parsed template: an item, or an `if` without `else` whose body holds items. -/
inductive Node (D : Type) where
  | item (i : Item D)
  | cond (test : D → Bool) (body : List (Item D))

/-- Truth of a string in an `if`: a string of length zero is empty, hence false. -/
def truth (s : String) : Bool := !(s == "")

/-- Walks the items in order, writing to the buffer; the first error stops the walk and is
returned, wrapped by `wrap`, with the buffer as written so far. -/
def execItems {D : Type} (wrap : Site → String → String) (fm : FuncMap) (d : D) :
    List (Item D) → String → String × Option String
  | [], buf => (buf, none)
  | Item.text s :: rest, buf => execItems wrap fm d rest (buf ++ s)
  | Item.action site eval :: rest, buf =>
    match eval fm d with
    | Except.ok v => execItems wrap fm d rest (buf ++ v)
    | Except.error e => (buf, some (wrap site e))

/-- Executes a parsed template against `d`, writing to the buffer (`Template.Execute`); `wrap`
is the `execError` of the library for the name of the template. -/
def Execute {D : Type} (wrap : Site → String → String) (fm : FuncMap) (d : D) :
    List (Node D) → String → String × Option String
  | [], buf => (buf, none)
  | Node.item i :: rest, buf =>
    match execItems wrap fm d [i] buf with
    | (buf1, none) => Execute wrap fm d rest buf1
    | (buf1, some e) => (buf1, some e)
  | Node.cond test body :: rest, buf =>
    if test d then
      match execItems wrap fm d body buf with
      | (buf1, none) => Execute wrap fm d rest buf1
      | (buf1, some e) => (buf1, some e)
    else Execute wrap fm d rest buf

structure InstanceEventData where
  Config : Config
  Instance : Instance

structure ASGEventData where
  Config : Config
  ASG : AutoScalingGroup

/-- The parse of the constant `reapableInstanceTemplateDataDog`.  The constant is a raw string:
a line break in it is a line break, and its `\n` is a backslash followed by `n`. -/
def reapableInstanceTemplateDataDog : List (Node InstanceEventData) := [
  Node.item (Item.text "%%%\nReaper has discovered an instance qualified as reapable: "),
  -- {{if .Instance.Name}}"{{.Instance.Name}}" {{end}}
  Node.cond (fun d => truth d.Instance.Name) [
    Item.text "\"",
    Item.action { line := 2, col := 81, text := ".Instance.Name" }
    (fun _ d => Except.ok d.Instance.Name),
    Item.text "\" "],
  -- [{{.Instance.ID}}]({{.Instance.AWSConsoleURL}}) in region:
  Node.item (Item.text "["),
  Node.item (Item.action { line := 2, col := 109, text := ".Instance.ID" }
    (fun _ d => Except.ok d.Instance.ID)),
  Node.item (Item.text "]("),
  Node.item (Item.action { line := 2, col := 127, text := ".Instance.AWSConsoleURL" }
    (fun _ d => Except.ok d.Instance.AWSConsoleURL)),
  Node.item (Item.text ") in region: ["),
  -- [{{.Instance.Region}}](https://{{.Instance.Region}}.console...?region={{.Instance.Region}}).\n
  Node.item (Item.action { line := 2, col := 168, text := ".Instance.Region" }
    (fun _ d => Except.ok d.Instance.Region)),
  Node.item (Item.text "](https://"),
  Node.item (Item.action { line := 2, col := 198, text := ".Instance.Region" }
    (fun _ d => Except.ok d.Instance.Region)),
  Node.item (Item.text ".console.aws.amazon.com/ec2/v2/home?region="),
  Node.item (Item.action { line := 2, col := 261, text := ".Instance.Region" }
    (fun _ d => Except.ok d.Instance.Region)),
  Node.item (Item.text ").\\n\n"),
  -- {{if .Instance.Owned}}Owned by {{.Instance.Owner}}.\n{{end}}
  Node.cond (fun d => d.Instance.Owned) [
    Item.text "Owned by ",
    Item.action { line := 3, col := 33, text := ".Instance.Owner" }
    (fun _ d => Except.ok d.Instance.Owner),
    Item.text ".\\n"],
  -- State: {{ .Instance.State.String}}.\n
  Node.item (Item.text "\nState: "),
  Node.item (Item.action { line := 4, col := 10, text := ".Instance.State.String" }
    (fun _ d => Except.ok d.Instance.State)),
  -- Instance Type: {{ .Instance.InstanceType}}.\n
  Node.item (Item.text ".\\n\nInstance Type: "),
  Node.item (Item.action { line := 5, col := 18, text := ".Instance.InstanceType" }
    (fun _ d => Except.ok d.Instance.InstanceType)),
  Node.item (Item.text ".\\n\n"),
  -- {{ if .Instance.PublicIPAddress.String}}This instance's public IP: {{.Instance.PublicIPAddress}}\n{{end}}
  Node.cond (fun d => truth d.Instance.PublicIPAddress) [
    Item.text "This instance's public IP: ",
    Item.action { line := 6, col := 69, text := ".Instance.PublicIPAddress" }
    (fun _ d => Except.ok d.Instance.PublicIPAddress),
    Item.text "\\n"],
  Node.item (Item.text "\n"),
  -- {{ if .Instance.AWSConsoleURL}}{{.Instance.AWSConsoleURL}}\n{{end}}
  Node.cond (fun d => truth d.Instance.AWSConsoleURL) [
    Item.action { line := 7, col := 33, text := ".Instance.AWSConsoleURL" }
    (fun _ d => Except.ok d.Instance.AWSConsoleURL),
    Item.text "\\n"],
  -- [AWS Console URL]({{.Instance.AWSConsoleURL}})\n
  Node.item (Item.text "\n[AWS Console URL]("),
  Node.item (Item.action { line := 8, col := 20, text := ".Instance.AWSConsoleURL" }
    (fun _ d => Except.ok d.Instance.AWSConsoleURL)),
  -- [Whitelist]({{ MakeWhitelistLink .Config.TokenSecret .Config.HTTPApiURL .Instance.Region .Instance.ID }}) this instance.
  Node.item (Item.text ")\\n\n[Whitelist]("),
  Node.item (Item.action
    { line := 9, col := 15,
      text := "MakeWhitelistLink .Config.TokenSecret .Config.HTTPApiURL .Instance.Region .Instance.ID" }
    (fun fm d =>
    fm.MakeWhitelistLink d.Config.TokenSecret d.Config.HTTPApiURL d.Instance.Region d.Instance.ID)),
  -- [Stop]({{ MakeStopLink .Config.TokenSecret .Config.HTTPApiURL .Instance.Region .Instance.ID }}) this instance.
  Node.item (Item.text ") this instance.\n[Stop]("),
  Node.item (Item.action
    { line := 10, col := 10,
      text := "MakeStopLink .Config.TokenSecret .Config.HTTPApiURL .Instance.Region .Instance.ID" }
    (fun fm d =>
    fm.MakeStopLink d.Config.TokenSecret d.Config.HTTPApiURL d.Instance.Region d.Instance.ID)),
  -- [Terminate]({{ MakeTerminateLink .Config.TokenSecret .Config.HTTPApiURL .Instance.Region .Instance.ID }}) this instance.
  Node.item (Item.text ") this instance.\n[Terminate]("),
  Node.item (Item.action
    { line := 11, col := 15,
      text := "MakeTerminateLink .Config.TokenSecret .Config.HTTPApiURL .Instance.Region .Instance.ID" }
    (fun fm d =>
    fm.MakeTerminateLink d.Config.TokenSecret d.Config.HTTPApiURL d.Instance.Region d.Instance.ID)),
  Node.item (Item.text ") this instance.\n%%%")]

/-- The parse of the constant `reapableASGTemplateDataDog`, a raw string as well. -/
def reapableASGTemplateDataDog : List (Node ASGEventData) := [
  -- [{{.ASG.ID}}]({{.ASG.AWSConsoleURL}}) in region:
  Node.item (Item.text "%%%\nReaper has discovered an ASG qualified as reapable: ["),
  Node.item (Item.action { line := 2, col := 55, text := ".ASG.ID" }
    (fun _ d => Except.ok d.ASG.ID)),
  Node.item (Item.text "]("),
  Node.item (Item.action { line := 2, col := 68, text := ".ASG.AWSConsoleURL" }
    (fun _ d => Except.ok d.ASG.AWSConsoleURL)),
  Node.item (Item.text ") in region: ["),
  -- [{{.ASG.Region}}](https://{{.ASG.Region}}.console...?region={{.ASG.Region}}).\n
  Node.item (Item.action { line := 2, col := 104, text := ".ASG.Region" }
    (fun _ d => Except.ok d.ASG.Region)),
  Node.item (Item.text "](https://"),
  Node.item (Item.action { line := 2, col := 129, text := ".ASG.Region" }
    (fun _ d => Except.ok d.ASG.Region)),
  Node.item (Item.text ".console.aws.amazon.com/ec2/v2/home?region="),
  Node.item (Item.action { line := 2, col := 187, text := ".ASG.Region" }
    (fun _ d => Except.ok d.ASG.Region)),
  Node.item (Item.text ").\\n\n"),
  -- {{if .ASG.Owned}}Owned by {{.ASG.Owner}}.\n{{end}}
  Node.cond (fun d => d.ASG.Owned) [
    Item.text "Owned by ",
    Item.action { line := 3, col := 28, text := ".ASG.Owner" }
    (fun _ d => Except.ok d.ASG.Owner),
    Item.text ".\\n"],
  Node.item (Item.text "\n"),
  -- {{ if .ASG.AWSConsoleURL}}{{.ASG.AWSConsoleURL}}\n{{end}}
  Node.cond (fun d => truth d.ASG.AWSConsoleURL) [
    Item.action { line := 4, col := 28, text := ".ASG.AWSConsoleURL" }
    (fun _ d => Except.ok d.ASG.AWSConsoleURL),
    Item.text "\\n"],
  -- [AWS Console URL]({{.ASG.AWSConsoleURL}})\n
  Node.item (Item.text "\n[AWS Console URL]("),
  Node.item (Item.action { line := 5, col := 20, text := ".ASG.AWSConsoleURL" }
    (fun _ d => Except.ok d.ASG.AWSConsoleURL)),
  -- [Whitelist]({{ MakeWhitelistLink .Config.TokenSecret .Config.HTTPApiURL .ASG.Region .ASG.ID }}) this ASG.
  Node.item (Item.text ")\\n\n[Whitelist]("),
  Node.item (Item.action
    { line := 6, col := 15,
      text := "MakeWhitelistLink .Config.TokenSecret .Config.HTTPApiURL .ASG.Region .ASG.ID" }
    (fun fm d =>
    fm.MakeWhitelistLink d.Config.TokenSecret d.Config.HTTPApiURL d.ASG.Region d.ASG.ID)),
  -- [Terminate]({{ MakeTerminateLink .Config.TokenSecret .Config.HTTPApiURL .ASG.Region .ASG.ID }}) this ASG.\n
  Node.item (Item.text ") this ASG.\n[Terminate]("),
  Node.item (Item.action
    { line := 7, col := 15,
      text := "MakeTerminateLink .Config.TokenSecret .Config.HTTPApiURL .ASG.Region .ASG.ID" }
    (fun fm d =>
    fm.MakeTerminateLink d.Config.TokenSecret d.Config.HTTPApiURL d.ASG.Region d.ASG.ID)),
  -- [Scale]({{ MakeStopLink .Config.TokenSecret .Config.HTTPApiURL .ASG.Region .ASG.ID }}) this ASG to 0 instances
  Node.item (Item.text ") this ASG.\\n\n[Scale]("),
  Node.item (Item.action
    { line := 8, col := 11,
      text := "MakeStopLink .Config.TokenSecret .Config.HTTPApiURL .ASG.Region .ASG.ID" }
    (fun fm d =>
    fm.MakeStopLink d.Config.TokenSecret d.Config.HTTPApiURL d.ASG.Region d.ASG.ID)),
  -- [Force Scale]({{ MakeForceStopLink .Config.TokenSecret .Config.HTTPApiURL .ASG.Region .ASG.ID }}) this ASG to 0 instances (changes minimum)
  Node.item (Item.text ") this ASG to 0 instances\n[Force Scale]("),
  Node.item (Item.action
    { line := 9, col := 17,
      text := "MakeForceStopLink .Config.TokenSecret .Config.HTTPApiURL .ASG.Region .ASG.ID" }
    (fun fm d =>
    fm.MakeForceStopLink d.Config.TokenSecret d.Config.HTTPApiURL d.ASG.Region d.ASG.ID)),
  Node.item (Item.text ") this ASG to 0 instances (changes minimum)\n%%%")]

/-! ## `NoEventReporter` -/

/-- The reporter that does nothing; it has no members. -/
structure NoEventReporter where
deriving DecidableEq, Repr

def NoEventReporter.NewEvent (_n : NoEventReporter) (_title _text : String)
    (_fields : Option (List (String × String))) (_tags : Option (List String)) (w : World) :
    World := w

def NoEventReporter.NewStatistic (_n : NoEventReporter) (_name : String) (_value : Float64)
    (_tags : Option (List String)) (w : World) : World := w

def NoEventReporter.NewCountStatistic (_n : NoEventReporter) (_name : String)
    (_tags : Option (List String)) (w : World) : World := w

def NoEventReporter.NewReapableInstanceEvent (_n : NoEventReporter) (i : Instance) (w : World) :
    Instance × World := (i, w)

def NoEventReporter.NewReapableASGEvent (_n : NoEventReporter) (a : AutoScalingGroup)
    (w : World) : AutoScalingGroup × World := (a, w)

/-! ## `Tagger` -/

structure TaggerConfig where
  Enabled : Bool
deriving DecidableEq, Repr

structure Tagger where
  Config : TaggerConfig
deriving DecidableEq, Repr

def Tagger.NewEvent (_t : Tagger) (_title _text : String)
    (_fields : Option (List (String × String))) (_tags : Option (List String)) (w : World) :
    World := w

def Tagger.NewStatistic (_t : Tagger) (_name : String) (_value : Float64)
    (_tags : Option (List String)) (w : World) : World := w

def Tagger.NewCountStatistic (_t : Tagger) (_name : String) (_tags : Option (List String))
    (w : World) : World := w

/-- The resource is behind a pointer: the result holds it as the methods left it. -/
def Tagger.NewReapableInstanceEvent (ops : ResourceOps Instance) (_t : Tagger) (i : Instance)
    (w : World) : Instance × World :=
  let updated := (ops.incrementState i).1
  let i1 := (ops.incrementState i).2
  let w1 := w ++ [Effect.incrementState i.ID]
  let w2 :=
    if updated then
      w1 ++ [Effect.logInfo "Updating tag on %s in region %s. New tag: %s."
        [i1.ID, i1.Region, ops.String i1.ReaperState]]
    else w1
  (ops.UpdateReaperState i1 i1.ReaperState, w2 ++ [Effect.UpdateReaperState i1.ID i1.ReaperState])

def Tagger.NewReapableASGEvent (ops : ResourceOps AutoScalingGroup) (_t : Tagger)
    (a : AutoScalingGroup) (w : World) : AutoScalingGroup × World :=
  let updated := (ops.incrementState a).1
  let a1 := (ops.incrementState a).2
  let w1 := w ++ [Effect.incrementState a.ID]
  let w2 :=
    if updated then
      w1 ++ [Effect.logInfo "Updating tag on %s in region %s. New tag: %s."
        [a1.ID, a1.Region, ops.String a1.ReaperState]]
    else w1
  (ops.UpdateReaperState a1 a1.ReaperState, w2 ++ [Effect.UpdateReaperState a1.ID a1.ReaperState])

/-! ## `DataDog` -/

/-- The sink that sends to DataDog.  Its other member, `eventTemplate`, is never read. -/
structure DataDog where
  godspeed : Option Handle
deriving DecidableEq, Repr

/-- What a method of `DataDog` leaves behind: the sink of the caller, the world, and whether the
call ended in a panic instead of returning. -/
structure Outcome where
  sink : DataDog
  world : World
  panicked : Bool
deriving DecidableEq, Repr

/-- The receiver is a pointer: the second component is the sink afterwards. -/
def DataDog.Godspeed (c : Client) (d : DataDog) (w : World) : Option Handle × DataDog × World :=
  match d.godspeed with
  | none =>
    match c.NewDefault w with
    | Except.error err =>
      (none, d, w ++ [Effect.NewDefault, Effect.logDebug "Error creating Godspeed, " [err]])
    | Except.ok g => (some g, { d with godspeed := some g }, w ++ [Effect.NewDefault])
  | some g => (some g, d, w)

/-- The method is called on `g` whatever `g` is: there is no `nil` check between `Godspeed` and
the call.  A panic inside the call ends the function; otherwise the error, if any, is logged and
then the closing line. -/
def DataDog.NewEvent (c : Client) (d : DataDog) (title text : String)
    (fields : Option (List (String × String))) (tags : Option (List String)) (w : World) :
    Outcome :=
  let g := (d.Godspeed c w).1
  let d1 := (d.Godspeed c w).2.1
  let w1 := (d.Godspeed c w).2.2
  match c.call w1 g (Op.Event title text fields tags) with
  | CallResult.panicked =>
    { sink := d1, world := w1 ++ [Effect.call g (Op.Event title text fields tags)], panicked := true }
  | CallResult.returned (some err) =>
    { sink := d1,
      world := w1 ++ [Effect.call g (Op.Event title text fields tags),
        Effect.logDebug ("Error reporting Godspeed event " ++ title) [err],
        Effect.logDebug ("Event " ++ title ++ " posted to DataDog.") []],
      panicked := false }
  | CallResult.returned none =>
    { sink := d1,
      world := w1 ++ [Effect.call g (Op.Event title text fields tags),
        Effect.logDebug ("Event " ++ title ++ " posted to DataDog.") []],
      panicked := false }

def DataDog.NewStatistic (c : Client) (d : DataDog) (name : String) (value : Float64)
    (tags : Option (List String)) (w : World) : Outcome :=
  let g := (d.Godspeed c w).1
  let d1 := (d.Godspeed c w).2.1
  let w1 := (d.Godspeed c w).2.2
  match c.call w1 g (Op.Gauge name value tags) with
  | CallResult.panicked =>
    { sink := d1, world := w1 ++ [Effect.call g (Op.Gauge name value tags)], panicked := true }
  | CallResult.returned (some err) =>
    { sink := d1,
      world := w1 ++ [Effect.call g (Op.Gauge name value tags),
        Effect.logDebug ("Error reporting Godspeed statistic " ++ name) [err],
        Effect.logDebug ("Statistic " ++ name ++ " posted to DataDog.") []],
      panicked := false }
  | CallResult.returned none =>
    { sink := d1,
      world := w1 ++ [Effect.call g (Op.Gauge name value tags),
        Effect.logDebug ("Statistic " ++ name ++ " posted to DataDog.") []],
      panicked := false }

def DataDog.NewCountStatistic (c : Client) (d : DataDog) (name : String)
    (tags : Option (List String)) (w : World) : Outcome :=
  let g := (d.Godspeed c w).1
  let d1 := (d.Godspeed c w).2.1
  let w1 := (d.Godspeed c w).2.2
  match c.call w1 g (Op.Incr name tags) with
  | CallResult.panicked =>
    { sink := d1, world := w1 ++ [Effect.call g (Op.Incr name tags)], panicked := true }
  | CallResult.returned (some err) =>
    { sink := d1,
      world := w1 ++ [Effect.call g (Op.Incr name tags),
        Effect.logDebug ("Error reporting Godspeed incr " ++ name) [err],
        Effect.logDebug ("Statistic " ++ name ++ " posted to DataDog.") []],
      panicked := false }
  | CallResult.returned none =>
    { sink := d1,
      world := w1 ++ [Effect.call g (Op.Incr name tags),
        Effect.logDebug ("Statistic " ++ name ++ " posted to DataDog.") []],
      panicked := false }

/-- The receiver is a value: `NewEvent` runs on the copy `d`, and the sink of the caller is the
one it passed in. -/
def DataDog.NewReapableASGEvent (c : Client) (tt : TextTemplate) (funcMap : FuncMap)
    (Conf : Config) (d : DataDog) (a : AutoScalingGroup) (w : World) : Outcome :=
  let data : ASGEventData := { ASG := a, Config := Conf }
  let buf := (Execute (tt.execError "reapable") funcMap data reapableASGTemplateDataDog "").1
  let w1 :=
    match (Execute (tt.execError "reapable") funcMap data reapableASGTemplateDataDog "").2 with
    | some err => w ++ [Effect.logDebug "Template generation error" [err]]
    | none => w
  let r := d.NewEvent c "Reapable ASG Discovered" buf none none w1
  if r.panicked then { sink := d, world := r.world, panicked := true }
  else
    { sink := d,
      world := r.world ++
        [Effect.logDebug ("Event Reapable ASG (" ++ a.ID ++ ") posted to DataDog.") []],
      panicked := false }

/-- The receiver is a value here too. -/
def DataDog.NewReapableInstanceEvent (c : Client) (tt : TextTemplate) (funcMap : FuncMap)
    (Conf : Config) (d : DataDog) (i : Instance) (w : World) : Outcome :=
  let data : InstanceEventData := { Instance := i, Config := Conf }
  let buf := (Execute (tt.execError "reapable") funcMap data reapableInstanceTemplateDataDog "").1
  let w1 :=
    match (Execute (tt.execError "reapable") funcMap data reapableInstanceTemplateDataDog "").2 with
    | some err => w ++ [Effect.logDebug "Template generation error" [err]]
    | none => w
  let r := d.NewEvent c ("Reapable Instance " ++ i.ID ++ " Discovered") buf none none w1
  if r.panicked then { sink := d, world := r.world, panicked := true }
  else
    { sink := d,
      world := r.world ++
        [Effect.logDebug ("Event Reapable Instance (" ++ i.ID ++ ") posted to DataDog.") []],
      panicked := false }

/-! ## What an observer sees of a world -/

def Effect.isLifecycle : Effect → Bool
  | Effect.incrementState _ => true
  | Effect.UpdateReaperState _ _ => true
  | _ => false

def Effect.isInfo : Effect → Bool
  | Effect.logInfo _ _ => true
  | _ => false

def Effect.isCall : Effect → Bool
  | Effect.call _ _ => true
  | _ => false

def Effect.isNewDefault : Effect → Bool
  | Effect.NewDefault => true
  | _ => false

/-- The calls of lifecycle methods of resources, in order. -/
def lifecycleCalls (w : World) : List Effect := w.filter Effect.isLifecycle

/-- The lines logged at level info, in order. -/
def infoLines (w : World) : List Effect := w.filter Effect.isInfo

/-- The method calls on the client, in order. -/
def clientCalls (w : World) : List Effect := w.filter Effect.isCall

/-- How many times `godspeed.NewDefault` was called. -/
def constructions (w : World) : Nat := (w.filter Effect.isNewDefault).length

/-- The shape the three sends of `DataDog` share, with the method call, the text of the failure
line and the closing line as parameters; the theorems about the sends are proved once, on it. -/
def DataDog.send (c : Client) (d : DataDog) (op : Op) (failure closing : String) (w : World) :
    Outcome :=
  let g := (d.Godspeed c w).1
  let d1 := (d.Godspeed c w).2.1
  let w1 := (d.Godspeed c w).2.2
  match c.call w1 g op with
  | CallResult.panicked => { sink := d1, world := w1 ++ [Effect.call g op], panicked := true }
  | CallResult.returned (some err) =>
    { sink := d1,
      world := w1 ++ [Effect.call g op, Effect.logDebug failure [err], Effect.logDebug closing []],
      panicked := false }
  | CallResult.returned none =>
    { sink := d1,
      world := w1 ++ [Effect.call g op, Effect.logDebug closing []],
      panicked := false }

/-- One of the three sends, named by the client method it ends in: `Op.Event` is `NewEvent`,
`Op.Gauge` is `NewStatistic`, `Op.Incr` is `NewCountStatistic`. -/
def DataDog.dispatch (c : Client) (d : DataDog) (op : Op) (w : World) : Outcome :=
  match op with
  | Op.Event title text fields tags => d.NewEvent c title text fields tags w
  | Op.Gauge name value tags => d.NewStatistic c name value tags w
  | Op.Incr name tags => d.NewCountStatistic c name tags w

/-- A caller that makes the sends one after the other on the same sink and stops at a panic. -/
def DataDog.run (c : Client) : List Op → DataDog → World → Outcome
  | [], d, w => { sink := d, world := w, panicked := false }
  | op :: rest, d, w =>
    if (d.dispatch c op w).panicked then d.dispatch c op w
    else DataDog.run c rest (d.dispatch c op w).sink (d.dispatch c op w).world

/-- The titles of the events sent to the client, in order. -/
def eventTitles : World → List String
  | [] => []
  | Effect.call _ (Op.Event title _ _ _) :: rest => title :: eventTitles rest
  | _ :: rest => eventTitles rest

/-- The bodies of the events sent to the client, in order. -/
def eventBodies : World → List String
  | [] => []
  | Effect.call _ (Op.Event _ text _ _) :: rest => text :: eventBodies rest
  | _ :: rest => eventBodies rest

/-- The text `sub` stands somewhere in `s` as a contiguous run (`strings.Contains`). -/
def contains (s sub : String) : Prop := sub.data <:+: s.data

instance (s sub : String) : Decidable (contains s sub) :=
  inferInstanceAs (Decidable (sub.data <:+: s.data))

/-- The number of positions of the text at which `sub` starts. -/
def occurrencesIn (sub : List Char) : List Char → Nat
  | [] => 0
  | c :: cs => (if sub <+: c :: cs then 1 else 0) + occurrencesIn sub cs

/-- The number of positions of `s` at which the non-empty text `sub` starts. -/
def occurrences (s sub : String) : Nat := occurrencesIn sub.data s.data

/-! ## Conditions under which an execution cannot write a given text -/

/-- The text starts with a character that does not occur in `pat`. -/
def headClear (pat : List Char) (s : String) : Bool :=
  match s.data with
  | [] => false
  | c :: _ => decide (c ∉ pat)

/-- Every action among the items is directly followed by a literal text that starts with a
character not in `pat`. -/
def separatedItems {D : Type} (pat : List Char) : List (Item D) → Bool
  | [] => true
  | Item.text _ :: rest => separatedItems pat rest
  | Item.action _ _ :: rest =>
    (match rest with
      | Item.text s :: _ => headClear pat s
      | _ => false) && separatedItems pat rest

/-- The same for the nodes of a template, the bodies of its `if`s included. -/
def separated {D : Type} (pat : List Char) : List (Node D) → Bool
  | [] => true
  | Node.item (Item.text _) :: rest => separated pat rest
  | Node.item (Item.action _ _) :: rest =>
    (match rest with
      | Node.item (Item.text s) :: _ => headClear pat s
      | _ => false) && separated pat rest
  | Node.cond _ body :: rest => separatedItems pat body && separated pat rest

/-- A literal text is fine when the first character of the pattern `p :: ps` is not in it, an
action when the value it prints does not contain the pattern. -/
def Item.fine {D : Type} (p : Char) (ps : List Char) (fm : FuncMap) (d : D) : Item D → Prop
  | Item.text s => ∀ c ∈ s.data, c ≠ p
  | Item.action _ eval => ∀ v, eval fm d = Except.ok v → ¬ (p :: ps) <:+: v.data

/-- A node is fine when its items are; the body of an `if` counts only when it is executed. -/
def Node.fine {D : Type} (p : Char) (ps : List Char) (fm : FuncMap) (d : D) : Node D → Prop
  | Node.item i => i.fine p ps fm d
  | Node.cond test body => test d = true → ∀ it ∈ body, it.fine p ps fm d

/-! ## Concrete surroundings, for evaluating the code -/

/-- A client library without a reachable agent: construction fails every time, and a method
called on the `nil` receiver panics. -/
def deadAgent : Client where
  NewDefault := fun _ => Except.error "dial udp 127.0.0.1:8125: connection refused"
  call := fun _ g _ =>
    match g with
    | none => CallResult.panicked
    | some _ => CallResult.returned none

/-- A client library with a reachable agent: every construction succeeds and returns a client of
its own, every send on a client succeeds. -/
def liveAgent : Client where
  NewDefault := fun w => Except.ok (constructions w)
  call := fun _ g _ =>
    match g with
    | none => CallResult.panicked
    | some _ => CallResult.returned none

/-- A client library whose first construction fails and whose later ones succeed. -/
def lateAgent : Client where
  NewDefault := fun w =>
    if constructions w = 0 then Except.error "dial udp 127.0.0.1:8125: connection refused"
    else Except.ok (constructions w)
  call := fun _ g _ =>
    match g with
    | none => CallResult.panicked
    | some _ => CallResult.returned none

/-- The wrapping of current versions of `text/template`: the location, the name of the template,
the text of the command and the name of the function called, which is the first word of the
command, in front of the error. -/
def goTemplate : TextTemplate where
  execError := fun name site err =>
    "template: " ++ name ++ ":" ++ toString site.line ++ ":" ++ toString site.col
      ++ ": executing \"" ++ name ++ "\" at <" ++ site.text ++ ">: error calling "
      ++ String.mk (site.text.data.takeWhile (fun ch => ch != ' ')) ++ ": " ++ err

/-- Modelled from the spec: the link builders are declared outside this file; the spec gives a
link the shape `<baseURL>/<action>?token=<secret>&region=<region>&id=<resourceID>`. -/
def makeLink (action : String) : LinkBuilder :=
  fun secretToken apiBaseURL region resourceID =>
    Except.ok (apiBaseURL ++ "/" ++ action ++ "?token=" ++ secretToken ++ "&region=" ++ region
      ++ "&id=" ++ resourceID)

def specLinks : FuncMap where
  MakeTerminateLink := makeLink "terminate"
  MakeIgnoreLink := makeLink "ignore"
  MakeWhitelistLink := makeLink "whitelist"
  MakeStopLink := makeLink "stop"
  MakeForceStopLink := makeLink "forcestop"

/-- Link builders of which `MakeStopLink` fails. -/
def brokenStopLinks : FuncMap where
  MakeTerminateLink := makeLink "terminate"
  MakeIgnoreLink := makeLink "ignore"
  MakeWhitelistLink := makeLink "whitelist"
  MakeStopLink := fun _ _ _ _ => Except.error "token: signing failed"
  MakeForceStopLink := makeLink "forcestop"

/-- Link builders of which only `MakeForceStopLink` fails; the instance template does not call
it. -/
def brokenForceStopLinks : FuncMap where
  MakeTerminateLink := makeLink "terminate"
  MakeIgnoreLink := makeLink "ignore"
  MakeWhitelistLink := makeLink "whitelist"
  MakeStopLink := makeLink "stop"
  MakeForceStopLink := fun _ _ _ _ => Except.error "token: signing failed"

def sampleConf : Config where
  TokenSecret := "s3cr3t"
  HTTPApiURL := "http://reaper.local"

/-- The instance of the spec's example, `ID`, `Region` and `Owned` as given there. -/
def sampleInstance : Instance where
  ID := "i-123"
  Name := ""
  Region := "us-east-1"
  AWSConsoleURL := ""
  Owned := false
  Owner := ""
  State := "running"
  InstanceType := "t2.micro"
  PublicIPAddress := ""
  ReaperState := { rank := 0 }

def otherInstance : Instance where
  ID := "i-456"
  Name := "web"
  Region := "eu-west-1"
  AWSConsoleURL := "https://console.example/i-456"
  Owned := true
  Owner := "ops@example.com"
  State := "stopped"
  InstanceType := "m3.large"
  PublicIPAddress := "10.0.0.7"
  ReaperState := { rank := 1 }

def sampleASG : AutoScalingGroup where
  ID := "asg-1"
  Region := "us-west-2"
  AWSConsoleURL := ""
  Owned := false
  Owner := ""
  ReaperState := { rank := 0 }

/-- A sink as constructed at start-up: no client yet. -/
def freshSink : DataDog where
  godspeed := none

/-- Lifecycle methods over a three-step order: the state advances up to rank 2 and stays. -/
def sampleInstanceOps : ResourceOps Instance where
  incrementState := fun i =>
    if i.ReaperState.rank < 2 then
      (true, { i with ReaperState := { rank := i.ReaperState.rank + 1 } })
    else (false, i)
  UpdateReaperState := fun i s => { i with ReaperState := s }
  String := fun s => toString s.rank

def sampleASGOps : ResourceOps AutoScalingGroup where
  incrementState := fun a =>
    if a.ReaperState.rank < 2 then
      (true, { a with ReaperState := { rank := a.ReaperState.rank + 1 } })
    else (false, a)
  UpdateReaperState := fun a s => { a with ReaperState := s }
  String := fun s => toString s.rank

def sampleTagger : Tagger where
  Config := { Enabled := true }

/-! ## Theorems: `Tagger` -/

/-- C4: for every instance and every auto-scaling group, `Tagger.NewReapableInstanceEvent` and
`Tagger.NewReapableASGEvent` call `incrementState` once and then `UpdateReaperState` once, in
that order and whatever `incrementState` returned, and the state passed to `UpdateReaperState`
is the state the resource has after the increment; two calls in a row make both pairs of calls,
so also when the second `incrementState` returns false. -/
theorem Tagger.increment_then_update (opsI : ResourceOps Instance)
    (opsA : ResourceOps AutoScalingGroup) (t : Tagger) (i : Instance) (a : AutoScalingGroup)
    (w : World) :
    lifecycleCalls (Tagger.NewReapableInstanceEvent opsI t i w).2
        = lifecycleCalls w ++ [Effect.incrementState i.ID,
            Effect.UpdateReaperState (opsI.incrementState i).2.ID
              (opsI.incrementState i).2.ReaperState]
    ∧ lifecycleCalls (Tagger.NewReapableASGEvent opsA t a w).2
        = lifecycleCalls w ++ [Effect.incrementState a.ID,
            Effect.UpdateReaperState (opsA.incrementState a).2.ID
              (opsA.incrementState a).2.ReaperState]
    ∧ lifecycleCalls (Tagger.NewReapableInstanceEvent opsI t
          (Tagger.NewReapableInstanceEvent opsI t i w).1
          (Tagger.NewReapableInstanceEvent opsI t i w).2).2
        = lifecycleCalls w ++ [Effect.incrementState i.ID,
            Effect.UpdateReaperState (opsI.incrementState i).2.ID
              (opsI.incrementState i).2.ReaperState,
            Effect.incrementState (Tagger.NewReapableInstanceEvent opsI t i w).1.ID,
            Effect.UpdateReaperState
              (opsI.incrementState (Tagger.NewReapableInstanceEvent opsI t i w).1).2.ID
              (opsI.incrementState (Tagger.NewReapableInstanceEvent opsI t i w).1).2.ReaperState]
    ∧ lifecycleCalls (Tagger.NewReapableASGEvent opsA t
          (Tagger.NewReapableASGEvent opsA t a w).1
          (Tagger.NewReapableASGEvent opsA t a w).2).2
        = lifecycleCalls w ++ [Effect.incrementState a.ID,
            Effect.UpdateReaperState (opsA.incrementState a).2.ID
              (opsA.incrementState a).2.ReaperState,
            Effect.incrementState (Tagger.NewReapableASGEvent opsA t a w).1.ID,
            Effect.UpdateReaperState
              (opsA.incrementState (Tagger.NewReapableASGEvent opsA t a w).1).2.ID
              (opsA.incrementState (Tagger.NewReapableASGEvent opsA t a w).1).2.ReaperState] := by
  have hI : ∀ (j : Instance) (v : World),
      lifecycleCalls (Tagger.NewReapableInstanceEvent opsI t j v).2
        = lifecycleCalls v ++ [Effect.incrementState j.ID,
            Effect.UpdateReaperState (opsI.incrementState j).2.ID
              (opsI.incrementState j).2.ReaperState] := by
    intro j v
    cases h : (opsI.incrementState j).1 <;>
      simp [Tagger.NewReapableInstanceEvent, lifecycleCalls, List.filter_cons, Effect.isLifecycle, h]
  have hA : ∀ (b : AutoScalingGroup) (v : World),
      lifecycleCalls (Tagger.NewReapableASGEvent opsA t b v).2
        = lifecycleCalls v ++ [Effect.incrementState b.ID,
            Effect.UpdateReaperState (opsA.incrementState b).2.ID
              (opsA.incrementState b).2.ReaperState] := by
    intro b v
    cases h : (opsA.incrementState b).1 <;>
      simp [Tagger.NewReapableASGEvent, lifecycleCalls, List.filter_cons, Effect.isLifecycle, h]
  refine ⟨hI i w, hA a w, ?_, ?_⟩
  · rw [hI, hI, List.append_assoc]; rfl
  · rw [hA, hA, List.append_assoc]; rfl

/-- An instance at rank 1: the first event advances it to rank 2, the second `incrementState`
returns false, and `UpdateReaperState` is called both times. -/
theorem Tagger.increment_then_update_witness :
    (sampleInstanceOps.incrementState otherInstance).1 = true
    ∧ (sampleInstanceOps.incrementState
        (Tagger.NewReapableInstanceEvent sampleInstanceOps sampleTagger otherInstance []).1).1
      = false
    ∧ lifecycleCalls (Tagger.NewReapableInstanceEvent sampleInstanceOps sampleTagger
          (Tagger.NewReapableInstanceEvent sampleInstanceOps sampleTagger otherInstance []).1
          (Tagger.NewReapableInstanceEvent sampleInstanceOps sampleTagger otherInstance []).2).2
        = [Effect.incrementState "i-456", Effect.UpdateReaperState "i-456" { rank := 2 },
            Effect.incrementState "i-456", Effect.UpdateReaperState "i-456" { rank := 2 }] :=
  ⟨by decide, by decide,
    (Tagger.increment_then_update sampleInstanceOps sampleASGOps sampleTagger otherInstance
      sampleASG []).2.2.1⟩

/-- C9: for every instance and every auto-scaling group, `Tagger.NewReapableInstanceEvent` and
`Tagger.NewReapableASGEvent` log their line exactly when `incrementState` returned true: one
line then, none when it returned false. -/
theorem Tagger.logs_iff_updated (opsI : ResourceOps Instance)
    (opsA : ResourceOps AutoScalingGroup) (t : Tagger) (i : Instance) (a : AutoScalingGroup)
    (w : World) :
    infoLines (Tagger.NewReapableInstanceEvent opsI t i w).2
        = infoLines w ++
          (if (opsI.incrementState i).1 = true then
            [Effect.logInfo "Updating tag on %s in region %s. New tag: %s."
              [(opsI.incrementState i).2.ID, (opsI.incrementState i).2.Region,
                opsI.String (opsI.incrementState i).2.ReaperState]]
          else [])
    ∧ infoLines (Tagger.NewReapableASGEvent opsA t a w).2
        = infoLines w ++
          (if (opsA.incrementState a).1 = true then
            [Effect.logInfo "Updating tag on %s in region %s. New tag: %s."
              [(opsA.incrementState a).2.ID, (opsA.incrementState a).2.Region,
                opsA.String (opsA.incrementState a).2.ReaperState]]
          else []) := by
  constructor
  · cases h : (opsI.incrementState i).1 <;>
      simp [Tagger.NewReapableInstanceEvent, infoLines, List.filter_cons, Effect.isInfo, h]
  · cases h : (opsA.incrementState a).1 <;>
      simp [Tagger.NewReapableASGEvent, infoLines, List.filter_cons, Effect.isInfo, h]

/-- The first event on an instance at rank 1 logs one line, the second one none. -/
theorem Tagger.logs_iff_updated_witness :
    infoLines (Tagger.NewReapableInstanceEvent sampleInstanceOps sampleTagger otherInstance []).2
        = [Effect.logInfo "Updating tag on %s in region %s. New tag: %s."
            ["i-456", "eu-west-1", "2"]]
    ∧ infoLines (Tagger.NewReapableInstanceEvent sampleInstanceOps sampleTagger
          (Tagger.NewReapableInstanceEvent sampleInstanceOps sampleTagger otherInstance []).1
          []).2 = [] :=
  ⟨(Tagger.logs_iff_updated sampleInstanceOps sampleASGOps sampleTagger otherInstance
      sampleASG []).1,
    (Tagger.logs_iff_updated sampleInstanceOps sampleASGOps sampleTagger
      (Tagger.NewReapableInstanceEvent sampleInstanceOps sampleTagger otherInstance []).1
      sampleASG []).1⟩

/-! ## Theorems: the client handle of `DataDog` -/

theorem clientCalls_append (u v : World) : clientCalls (u ++ v) = clientCalls u ++ clientCalls v := by
  simp [clientCalls]

theorem constructions_append (u v : World) :
    constructions (u ++ v) = constructions u + constructions v := by
  simp [constructions]

theorem clientCalls_Godspeed (c : Client) (d : DataDog) (w : World) :
    clientCalls (d.Godspeed c w).2.2 = clientCalls w := by
  unfold DataDog.Godspeed
  cases hd : d.godspeed with
  | some g => rfl
  | none =>
    cases hc : c.NewDefault w <;>
      simp [clientCalls, List.filter_cons, Effect.isCall]

/-- A send calls the client method once, on whatever `Godspeed` returned. -/
theorem clientCalls_send (c : Client) (d : DataDog) (op : Op) (failure closing : String)
    (w : World) :
    clientCalls (d.send c op failure closing w).world
      = clientCalls w ++ [Effect.call (d.Godspeed c w).1 op] := by
  have hlist : ∀ rest : List Effect, (∀ x ∈ rest, x.isCall = false) →
      clientCalls (Effect.call (d.Godspeed c w).1 op :: rest)
        = [Effect.call (d.Godspeed c w).1 op] := by
    intro rest hrest
    have hnil : rest.filter Effect.isCall = [] := by
      rw [List.filter_eq_nil_iff]
      intro x hx
      simp [hrest x hx]
    have hcall : Effect.isCall (Effect.call (d.Godspeed c w).1 op) = true := rfl
    simp only [clientCalls, List.filter_cons, hcall, if_true, hnil]
  rcases hr : c.call (d.Godspeed c w).2.2 (d.Godspeed c w).1 op with (_ | err) | _ <;>
    simp only [DataDog.send, hr, clientCalls_append, clientCalls_Godspeed] <;>
    rw [hlist] <;> simp [Effect.isCall]

/-- A send that does not panic logs its closing line. -/
theorem closing_mem_send (c : Client) (d : DataDog) (op : Op) (failure closing : String)
    (w : World) :
    (d.send c op failure closing w).panicked = true
      ∨ Effect.logDebug closing [] ∈ (d.send c op failure closing w).world := by
  rcases hr : c.call (d.Godspeed c w).2.2 (d.Godspeed c w).1 op with (_ | err) | _ <;>
    simp [DataDog.send, hr]

theorem Godspeed_of_cached (c : Client) (d : DataDog) (w : World) (g : Handle)
    (hd : d.godspeed = some g) : d.Godspeed c w = (some g, d, w) := by
  simp [DataDog.Godspeed, hd]

theorem Godspeed_of_failure (c : Client) (d : DataDog) (w : World) (e : String)
    (hd : d.godspeed = none) (hf : c.NewDefault w = Except.error e) :
    d.Godspeed c w
      = (none, d, w ++ [Effect.NewDefault, Effect.logDebug "Error creating Godspeed, " [e]]) := by
  simp [DataDog.Godspeed, hd, hf]

theorem Godspeed_of_success (c : Client) (d : DataDog) (w : World) (g : Handle)
    (hd : d.godspeed = none) (hs : c.NewDefault w = Except.ok g) :
    d.Godspeed c w = (some g, { d with godspeed := some g }, w ++ [Effect.NewDefault]) := by
  simp [DataDog.Godspeed, hd, hs]

theorem send_sink (c : Client) (d : DataDog) (op : Op) (failure closing : String) (w : World) :
    (d.send c op failure closing w).sink = (d.Godspeed c w).2.1 := by
  rcases hr : c.call (d.Godspeed c w).2.2 (d.Godspeed c w).1 op with (_ | err) | _ <;>
    simp [DataDog.send, hr]

theorem NewEvent_eq_send (c : Client) (d : DataDog) (title text : String)
    (fields : Option (List (String × String))) (tags : Option (List String)) (w : World) :
    d.NewEvent c title text fields tags w
      = d.send c (Op.Event title text fields tags) ("Error reporting Godspeed event " ++ title)
          ("Event " ++ title ++ " posted to DataDog.") w := rfl

theorem NewStatistic_eq_send (c : Client) (d : DataDog) (name : String) (value : Float64)
    (tags : Option (List String)) (w : World) :
    d.NewStatistic c name value tags w
      = d.send c (Op.Gauge name value tags) ("Error reporting Godspeed statistic " ++ name)
          ("Statistic " ++ name ++ " posted to DataDog.") w := rfl

theorem NewCountStatistic_eq_send (c : Client) (d : DataDog) (name : String)
    (tags : Option (List String)) (w : World) :
    d.NewCountStatistic c name tags w
      = d.send c (Op.Incr name tags) ("Error reporting Godspeed incr " ++ name)
          ("Statistic " ++ name ++ " posted to DataDog.") w := rfl

/-- C1: when no client is cached and construction fails, `NewEvent`, `NewStatistic` and
`NewCountStatistic` still call the client method, on the `nil` handle that `Godspeed` returned,
and then either panic or log that the event or statistic was posted: the call is not a silent
no-op. -/
theorem DataDog.absent_handle_is_called (c : Client) (d : DataDog) (w : World) (e : String)
    (title text name : String) (fields : Option (List (String × String)))
    (tags : Option (List String)) (value : Float64)
    (hd : d.godspeed = none) (hf : c.NewDefault w = Except.error e) :
    (clientCalls (d.NewEvent c title text fields tags w).world
        = clientCalls w ++ [Effect.call none (Op.Event title text fields tags)]
      ∧ ((d.NewEvent c title text fields tags w).panicked = true
        ∨ Effect.logDebug ("Event " ++ title ++ " posted to DataDog.") []
            ∈ (d.NewEvent c title text fields tags w).world))
    ∧ (clientCalls (d.NewStatistic c name value tags w).world
        = clientCalls w ++ [Effect.call none (Op.Gauge name value tags)]
      ∧ ((d.NewStatistic c name value tags w).panicked = true
        ∨ Effect.logDebug ("Statistic " ++ name ++ " posted to DataDog.") []
            ∈ (d.NewStatistic c name value tags w).world))
    ∧ (clientCalls (d.NewCountStatistic c name tags w).world
        = clientCalls w ++ [Effect.call none (Op.Incr name tags)]
      ∧ ((d.NewCountStatistic c name tags w).panicked = true
        ∨ Effect.logDebug ("Statistic " ++ name ++ " posted to DataDog.") []
            ∈ (d.NewCountStatistic c name tags w).world)) := by
  have hg : (d.Godspeed c w).1 = none := by rw [Godspeed_of_failure c d w e hd hf]
  refine ⟨⟨?_, closing_mem_send _ _ _ _ _ _⟩, ⟨?_, closing_mem_send _ _ _ _ _ _⟩,
    ⟨?_, closing_mem_send _ _ _ _ _ _⟩⟩
  · rw [NewEvent_eq_send, clientCalls_send, hg]
  · rw [NewStatistic_eq_send, clientCalls_send, hg]
  · rw [NewCountStatistic_eq_send, clientCalls_send, hg]

/-- At a dead agent the three sends on a fresh sink call the method on the `nil` handle and
panic. -/
theorem DataDog.absent_handle_is_called_witness :
    (freshSink.godspeed = none
      ∧ deadAgent.NewDefault [] = Except.error "dial udp 127.0.0.1:8125: connection refused")
    ∧ (freshSink.NewEvent deadAgent "t" "b" none none []).panicked = true
    ∧ (clientCalls (freshSink.NewEvent deadAgent "t" "b" none none []).world
        = clientCalls [] ++ [Effect.call none (Op.Event "t" "b" none none)]
      ∧ ((freshSink.NewEvent deadAgent "t" "b" none none []).panicked = true
        ∨ Effect.logDebug ("Event " ++ "t" ++ " posted to DataDog.") []
            ∈ (freshSink.NewEvent deadAgent "t" "b" none none []).world))
    ∧ (clientCalls (freshSink.NewStatistic deadAgent "n" { bits := 0 } none []).world
        = clientCalls [] ++ [Effect.call none (Op.Gauge "n" { bits := 0 } none)]
      ∧ ((freshSink.NewStatistic deadAgent "n" { bits := 0 } none []).panicked = true
        ∨ Effect.logDebug ("Statistic " ++ "n" ++ " posted to DataDog.") []
            ∈ (freshSink.NewStatistic deadAgent "n" { bits := 0 } none []).world))
    ∧ (clientCalls (freshSink.NewCountStatistic deadAgent "n" none []).world
        = clientCalls [] ++ [Effect.call none (Op.Incr "n" none)]
      ∧ ((freshSink.NewCountStatistic deadAgent "n" none []).panicked = true
        ∨ Effect.logDebug ("Statistic " ++ "n" ++ " posted to DataDog.") []
            ∈ (freshSink.NewCountStatistic deadAgent "n" none []).world)) :=
  ⟨⟨rfl, rfl⟩, by decide,
    DataDog.absent_handle_is_called deadAgent freshSink []
      "dial udp 127.0.0.1:8125: connection refused" "t" "b" "n" none none { bits := 0 } rfl rfl⟩

theorem constructions_Godspeed_of_none (c : Client) (d : DataDog) (w : World)
    (hd : d.godspeed = none) :
    constructions (d.Godspeed c w).2.2 = constructions w + 1 := by
  cases hc : c.NewDefault w <;>
    simp [DataDog.Godspeed, hd, hc, constructions, List.filter_cons, Effect.isNewDefault]

theorem constructions_send (c : Client) (d : DataDog) (op : Op) (failure closing : String)
    (w : World) :
    constructions (d.send c op failure closing w).world = constructions (d.Godspeed c w).2.2 := by
  rcases hr : c.call (d.Godspeed c w).2.2 (d.Godspeed c w).1 op with (_ | err) | _ <;>
    simp [DataDog.send, hr, constructions, List.filter_cons, Effect.isNewDefault]

/-- Through the pointer receiver the handle is kept: a send on a sink without a client whose
construction succeeds leaves the client in the sink, and a send on a sink with a client
constructs nothing and leaves the sink as it is. -/
theorem DataDog.send_keeps_handle (c : Client) (d : DataDog) (op : Op)
    (failure closing : String) (w : World) :
    (∀ g, d.godspeed = none → c.NewDefault w = Except.ok g →
      (d.send c op failure closing w).sink.godspeed = some g)
    ∧ (∀ g, d.godspeed = some g →
      (d.send c op failure closing w).sink = d
      ∧ constructions (d.send c op failure closing w).world = constructions w) := by
  constructor
  · intro g hd hs
    rw [send_sink, Godspeed_of_success c d w g hd hs]
  · intro g hd
    rw [send_sink, constructions_send, Godspeed_of_cached c d w g hd]
    exact ⟨rfl, rfl⟩

theorem dispatch_eq_send (c : Client) (d : DataDog) (op : Op) (w : World) :
    ∃ failure closing, d.dispatch c op w = d.send c op failure closing w := by
  cases op with
  | Event title text fields tags => exact ⟨_, _, rfl⟩
  | Gauge name value tags => exact ⟨_, _, rfl⟩
  | Incr name tags => exact ⟨_, _, rfl⟩

/-- Through the pointer receivers the cache works: when construction always succeeds, any run
of `NewEvent`, `NewStatistic` and `NewCountStatistic` on one sink calls `NewDefault` once at
most, and not at all when the sink has a client already. -/
theorem DataDog.run_constructs_once (c : Client) (hs : ∀ v, ∃ g, c.NewDefault v = Except.ok g)
    (ops : List Op) (d : DataDog) (w : World) :
    constructions (DataDog.run c ops d w).world ≤ constructions w + 1
    ∧ (∀ g, d.godspeed = some g → constructions (DataDog.run c ops d w).world = constructions w) := by
  have hcached : ∀ (ops : List Op) (d : DataDog) (w : World) (g : Handle),
      d.godspeed = some g → constructions (DataDog.run c ops d w).world = constructions w := by
    intro ops
    induction ops with
    | nil => intro d w g _; rfl
    | cons op rest ih =>
      intro d w g hd
      obtain ⟨failure, closing, he⟩ := dispatch_eq_send c d op w
      have hk := (DataDog.send_keeps_handle c d op failure closing w).2 g hd
      rw [← he] at hk
      simp only [DataDog.run]
      split
      · exact hk.2
      · rw [ih _ _ g (by rw [hk.1]; exact hd), hk.2]
  refine ⟨?_, hcached ops d w⟩
  cases hd : d.godspeed with
  | some g => rw [hcached ops d w g hd]; omega
  | none =>
    cases ops with
    | nil => simp [DataDog.run]
    | cons op rest =>
      obtain ⟨g, hg⟩ := hs w
      obtain ⟨failure, closing, he⟩ := dispatch_eq_send c d op w
      have hk := (DataDog.send_keeps_handle c d op failure closing w).1 g hd hg
      have hc : constructions (d.dispatch c op w).world = constructions w + 1 := by
        rw [he, constructions_send, constructions_Godspeed_of_none c d w hd]
      rw [← he] at hk
      simp only [DataDog.run]
      split
      · rw [hc]
      · rw [hcached rest _ _ g hk, hc]

/-- C3: when no client is cached and construction fails, `Godspeed` returns the `nil` handle and
leaves the cached handle `nil`, also at the end of a `NewEvent` that ran into the failure; the
next `Godspeed` on that sink, at whatever later time, calls `NewDefault` again, and when that
construction succeeds it returns the new client and caches it, and a `NewEvent` making this
second call sends its event on the new client and leaves it cached. -/
theorem DataDog.failure_is_not_cached (c : Client) (d : DataDog) (w : World) (e : String)
    (hd : d.godspeed = none) (hf : c.NewDefault w = Except.error e) :
    (d.Godspeed c w).1 = none
    ∧ (d.Godspeed c w).2.1.godspeed = none
    ∧ (∀ title text fields tags, (d.NewEvent c title text fields tags w).sink.godspeed = none)
    ∧ ∀ w2 : World,
        constructions ((d.Godspeed c w).2.1.Godspeed c w2).2.2 = constructions w2 + 1
        ∧ ∀ g, c.NewDefault w2 = Except.ok g →
            ((d.Godspeed c w).2.1.Godspeed c w2).1 = some g
            ∧ ((d.Godspeed c w).2.1.Godspeed c w2).2.1.godspeed = some g
            ∧ ∀ title text fields tags,
                clientCalls ((d.Godspeed c w).2.1.NewEvent c title text fields tags w2).world
                  = clientCalls w2 ++ [Effect.call (some g) (Op.Event title text fields tags)]
                ∧ ((d.Godspeed c w).2.1.NewEvent c title text fields tags w2).sink.godspeed
                  = some g := by
  have h1 := Godspeed_of_failure c d w e hd hf
  have hsink : (d.Godspeed c w).2.1 = d := by rw [h1]
  refine ⟨by rw [h1], by rw [hsink]; exact hd, ?_, ?_⟩
  · intro title text fields tags
    rw [NewEvent_eq_send, send_sink, hsink]; exact hd
  · intro w2
    rw [hsink]
    refine ⟨constructions_Godspeed_of_none c d w2 hd, ?_⟩
    intro g hs
    have h2 := Godspeed_of_success c d w2 g hd hs
    refine ⟨by rw [h2], by rw [h2], ?_⟩
    intro title text fields tags
    constructor
    · rw [NewEvent_eq_send, clientCalls_send, h2]
    · rw [NewEvent_eq_send, send_sink, h2]

/-- With an agent that comes up late, the first `Godspeed` on a fresh sink fails and caches
nothing, and a `NewEvent` after it builds client 1 and sends on it. -/
theorem DataDog.failure_is_not_cached_witness :
    (freshSink.godspeed = none
      ∧ lateAgent.NewDefault [] = Except.error "dial udp 127.0.0.1:8125: connection refused")
    ∧ (freshSink.Godspeed lateAgent []).1 = none
    ∧ (freshSink.Godspeed lateAgent []).2.1.godspeed = none
    ∧ clientCalls ((freshSink.Godspeed lateAgent []).2.1.NewEvent lateAgent "t" "b" none none
          (freshSink.Godspeed lateAgent []).2.2).world
        = clientCalls (freshSink.Godspeed lateAgent []).2.2
          ++ [Effect.call (some 1) (Op.Event "t" "b" none none)]
    ∧ ((freshSink.Godspeed lateAgent []).2.1.NewEvent lateAgent "t" "b" none none
          (freshSink.Godspeed lateAgent []).2.2).sink.godspeed = some 1 :=
  have h := DataDog.failure_is_not_cached lateAgent freshSink []
    "dial udp 127.0.0.1:8125: connection refused" rfl rfl
  ⟨⟨rfl, rfl⟩, h.1, h.2.1,
    ((h.2.2.2 (freshSink.Godspeed lateAgent []).2.2).2 1 rfl).2.2 "t" "b" none none⟩

theorem clientCalls_log (w : World) (msg : String) (args : List String) :
    clientCalls (w ++ [Effect.logDebug msg args]) = clientCalls w := by
  simp [clientCalls, List.filter_cons, Effect.isCall]

theorem constructions_log (w : World) (msg : String) (args : List String) :
    constructions (w ++ [Effect.logDebug msg args]) = constructions w := by
  simp [constructions, List.filter_cons, Effect.isNewDefault]

theorem Godspeed_fst_of_cached (c : Client) (d : DataDog) (w : World) (h : Handle)
    (hd : d.godspeed = some h) : (d.Godspeed c w).1 = some h := by
  rw [Godspeed_of_cached c d w h hd]

/-- The client calls of `NewReapableInstanceEvent`: one `Event`, on the handle `Godspeed`
returns, with the title built from the ID and the buffer of the execution as body. -/
theorem clientCalls_NewReapableInstanceEvent (c : Client) (tt : TextTemplate) (fm : FuncMap)
    (Conf : Config)
    (d : DataDog) (i : Instance) (w : World) :
    ∃ g, clientCalls (d.NewReapableInstanceEvent c tt fm Conf i w).world
        = clientCalls w ++ [Effect.call g (Op.Event ("Reapable Instance " ++ i.ID ++ " Discovered")
            (Execute (tt.execError "reapable") fm { Instance := i, Config := Conf }
                reapableInstanceTemplateDataDog "").1
            none none)]
      ∧ ∀ h, d.godspeed = some h → g = some h := by
  have hw1 : ∀ o : Option String,
      clientCalls (match o with
        | some err => w ++ [Effect.logDebug "Template generation error" [err]]
        | none => w) = clientCalls w := by
    intro o
    cases o <;> simp only [clientCalls_log]
  simp only [DataDog.NewReapableInstanceEvent]
  split <;>
    simp only [NewEvent_eq_send, clientCalls_send, clientCalls_log, hw1] <;>
    exact ⟨_, rfl, fun h hd => Godspeed_fst_of_cached _ _ _ h hd⟩

theorem clientCalls_NewReapableASGEvent (c : Client) (tt : TextTemplate) (fm : FuncMap)
    (Conf : Config)
    (d : DataDog) (a : AutoScalingGroup) (w : World) :
    ∃ g, clientCalls (d.NewReapableASGEvent c tt fm Conf a w).world
        = clientCalls w ++ [Effect.call g (Op.Event "Reapable ASG Discovered"
            (Execute (tt.execError "reapable") fm { ASG := a, Config := Conf }
                reapableASGTemplateDataDog "").1
            none none)]
      ∧ ∀ h, d.godspeed = some h → g = some h := by
  have hw1 : ∀ o : Option String,
      clientCalls (match o with
        | some err => w ++ [Effect.logDebug "Template generation error" [err]]
        | none => w) = clientCalls w := by
    intro o
    cases o <;> simp only [clientCalls_log]
  simp only [DataDog.NewReapableASGEvent]
  split <;>
    simp only [NewEvent_eq_send, clientCalls_send, clientCalls_log, hw1] <;>
    exact ⟨_, rfl, fun h hd => Godspeed_fst_of_cached _ _ _ h hd⟩

theorem mem_Godspeed_world (c : Client) (d : DataDog) (w : World) (x : Effect) (hx : x ∈ w) :
    x ∈ (d.Godspeed c w).2.2 := by
  unfold DataDog.Godspeed
  cases hd : d.godspeed with
  | some g => exact hx
  | none => cases hc : c.NewDefault w <;> simp [hx]

theorem mem_send_world (c : Client) (d : DataDog) (op : Op) (failure closing : String)
    (w : World) (x : Effect) (hx : x ∈ w) : x ∈ (d.send c op failure closing w).world := by
  have h := mem_Godspeed_world c d w x hx
  rcases hr : c.call (d.Godspeed c w).2.2 (d.Godspeed c w).1 op with (_ | err) | _ <;>
    simp [DataDog.send, hr, h]

theorem mem_NewReapableInstanceEvent_world (c : Client) (tt : TextTemplate) (fm : FuncMap)
    (Conf : Config)
    (d : DataDog) (i : Instance) (w : World) (e : String)
    (he : (Execute (tt.execError "reapable") fm
        ({ Instance := i, Config := Conf } : InstanceEventData)
      reapableInstanceTemplateDataDog "").2 = some e) :
    Effect.logDebug "Template generation error" [e]
      ∈ (d.NewReapableInstanceEvent c tt fm Conf i w).world := by
  simp only [DataDog.NewReapableInstanceEvent, he]
  split
  · exact mem_send_world _ _ _ _ _ _ _ (by simp)
  · exact List.mem_append_left _ (mem_send_world _ _ _ _ _ _ _ (by simp))

theorem mem_NewReapableASGEvent_world (c : Client) (tt : TextTemplate) (fm : FuncMap)
    (Conf : Config)
    (d : DataDog) (a : AutoScalingGroup) (w : World) (e : String)
    (he : (Execute (tt.execError "reapable") fm ({ ASG := a, Config := Conf } : ASGEventData)
      reapableASGTemplateDataDog "").2 = some e) :
    Effect.logDebug "Template generation error" [e]
      ∈ (d.NewReapableASGEvent c tt fm Conf a w).world := by
  simp only [DataDog.NewReapableASGEvent, he]
  split
  · exact mem_send_world _ _ _ _ _ _ _ (by simp)
  · exact List.mem_append_left _ (mem_send_world _ _ _ _ _ _ _ (by simp))

theorem constructions_NewReapableInstanceEvent (c : Client) (tt : TextTemplate) (fm : FuncMap)
    (Conf : Config)
    (d : DataDog) (i : Instance) (w : World) (hd : d.godspeed = none) :
    constructions (d.NewReapableInstanceEvent c tt fm Conf i w).world = constructions w + 1 := by
  have hw1 : ∀ o : Option String,
      constructions (match o with
        | some err => w ++ [Effect.logDebug "Template generation error" [err]]
        | none => w) = constructions w := by
    intro o
    cases o <;> simp only [constructions_log]
  simp only [DataDog.NewReapableInstanceEvent]
  split <;>
    simp only [NewEvent_eq_send, constructions_send, constructions_log,
      constructions_Godspeed_of_none _ _ _ hd, hw1]

theorem constructions_NewReapableASGEvent (c : Client) (tt : TextTemplate) (fm : FuncMap)
    (Conf : Config)
    (d : DataDog) (a : AutoScalingGroup) (w : World) (hd : d.godspeed = none) :
    constructions (d.NewReapableASGEvent c tt fm Conf a w).world = constructions w + 1 := by
  have hw1 : ∀ o : Option String,
      constructions (match o with
        | some err => w ++ [Effect.logDebug "Template generation error" [err]]
        | none => w) = constructions w := by
    intro o
    cases o <;> simp only [constructions_log]
  simp only [DataDog.NewReapableASGEvent]
  split <;>
    simp only [NewEvent_eq_send, constructions_send, constructions_log,
      constructions_Godspeed_of_none _ _ _ hd, hw1]

theorem sink_NewReapableInstanceEvent (c : Client) (tt : TextTemplate) (fm : FuncMap)
    (Conf : Config)
    (d : DataDog) (i : Instance) (w : World) :
    (d.NewReapableInstanceEvent c tt fm Conf i w).sink = d := by
  simp only [DataDog.NewReapableInstanceEvent]
  split <;> rfl

theorem sink_NewReapableASGEvent (c : Client) (tt : TextTemplate) (fm : FuncMap) (Conf : Config)
    (d : DataDog) (a : AutoScalingGroup) (w : World) :
    (d.NewReapableASGEvent c tt fm Conf a w).sink = d := by
  simp only [DataDog.NewReapableASGEvent]
  split <;> rfl

/-- C2: on a sink without a cached client, `NewReapableInstanceEvent` and `NewReapableASGEvent`
leave the sink of the caller without a client, also when the construction succeeded, so two such
calls in a row call `NewDefault` twice: the client is constructed more than once. -/
theorem DataDog.reapable_events_construct_again (c : Client) (tt : TextTemplate) (fm : FuncMap)
    (Conf : Config)
    (d : DataDog) (i : Instance) (a : AutoScalingGroup) (w : World)
    (hd : d.godspeed = none) :
    (d.NewReapableInstanceEvent c tt fm Conf i w).sink.godspeed = none
    ∧ constructions ((d.NewReapableInstanceEvent c tt fm Conf i w).sink.NewReapableInstanceEvent
          c tt fm Conf i (d.NewReapableInstanceEvent c tt fm Conf i w).world).world
        = constructions w + 2
    ∧ (d.NewReapableASGEvent c tt fm Conf a w).sink.godspeed = none
    ∧ constructions ((d.NewReapableASGEvent c tt fm Conf a w).sink.NewReapableASGEvent
          c tt fm Conf a (d.NewReapableASGEvent c tt fm Conf a w).world).world
        = constructions w + 2 := by
  refine ⟨?_, ?_, ?_, ?_⟩
  · rw [sink_NewReapableInstanceEvent]; exact hd
  · rw [sink_NewReapableInstanceEvent, constructions_NewReapableInstanceEvent _ _ _ _ _ _ _ hd,
      constructions_NewReapableInstanceEvent _ _ _ _ _ _ _ hd]
  · rw [sink_NewReapableASGEvent]; exact hd
  · rw [sink_NewReapableASGEvent, constructions_NewReapableASGEvent _ _ _ _ _ _ _ hd,
      constructions_NewReapableASGEvent _ _ _ _ _ _ _ hd]

/-- With a live agent, two reapable events in a row on a fresh sink construct two clients. -/
theorem DataDog.reapable_events_construct_again_witness :
    (freshSink.godspeed = none ∧ ∀ v, ∃ g, liveAgent.NewDefault v = Except.ok g)
    ∧ (freshSink.NewReapableInstanceEvent liveAgent goTemplate specLinks sampleConf sampleInstance
        []).sink.godspeed = none
    ∧ constructions ((freshSink.NewReapableInstanceEvent liveAgent goTemplate specLinks sampleConf
          sampleInstance []).sink.NewReapableInstanceEvent liveAgent goTemplate specLinks sampleConf
          sampleInstance (freshSink.NewReapableInstanceEvent liveAgent goTemplate specLinks
              sampleConf
            sampleInstance []).world).world
        = constructions [] + 2
    ∧ (freshSink.NewReapableASGEvent liveAgent goTemplate specLinks
        sampleConf sampleASG []).sink.godspeed
        = none
    ∧ constructions ((freshSink.NewReapableASGEvent liveAgent goTemplate specLinks sampleConf
          sampleASG []).sink.NewReapableASGEvent liveAgent goTemplate specLinks sampleConf
          sampleASG (freshSink.NewReapableASGEvent liveAgent goTemplate specLinks sampleConf
            sampleASG []).world).world
        = constructions [] + 2 :=
  ⟨⟨rfl, fun v => ⟨constructions v, rfl⟩⟩,
    DataDog.reapable_events_construct_again liveAgent goTemplate specLinks sampleConf freshSink
      sampleInstance sampleASG [] rfl⟩

/-! ## Theorems: the events of `DataDog` -/

/-- C5: for every auto-scaling group, `DataDog.NewReapableASGEvent` makes exactly one call on
the client, an `Event` whose title is `"Reapable ASG Discovered"`, whose body is the buffer
that executing the ASG template against the group and `Conf` wrote, and whose fields and tags
are `nil`; the receiver is the cached client when there is one. -/
theorem DataDog.asg_event_forwarded (c : Client) (tt : TextTemplate) (fm : FuncMap)
    (Conf : Config) (d : DataDog)
    (a : AutoScalingGroup) (w : World) :
    ∃ g, clientCalls (d.NewReapableASGEvent c tt fm Conf a w).world
        = clientCalls w ++ [Effect.call g (Op.Event "Reapable ASG Discovered"
            (Execute (tt.execError "reapable") fm { ASG := a, Config := Conf }
                reapableASGTemplateDataDog "").1
            none none)]
      ∧ ∀ h, d.godspeed = some h → g = some h :=
  clientCalls_NewReapableASGEvent c tt fm Conf d a w

/-- C6, as the code has it: for every instance, `DataDog.NewReapableInstanceEvent` makes exactly
one call on the client, an `Event` whose title is `"Reapable Instance "`, the ID of the
instance, `" Discovered"`, and whose body is the buffer that executing the instance template
wrote; the ID stands between the kind and the word `Discovered`. -/
theorem DataDog.instance_event_title (c : Client) (tt : TextTemplate) (fm : FuncMap)
    (Conf : Config) (d : DataDog)
    (i : Instance) (w : World) :
    ∃ g, clientCalls (d.NewReapableInstanceEvent c tt fm Conf i w).world
        = clientCalls w ++ [Effect.call g (Op.Event ("Reapable Instance " ++ i.ID ++ " Discovered")
            (Execute (tt.execError "reapable") fm { Instance := i, Config := Conf }
                reapableInstanceTemplateDataDog "").1
            none none)]
      ∧ ∀ h, d.godspeed = some h → g = some h :=
  clientCalls_NewReapableInstanceEvent c tt fm Conf d i w

/-- C6 as stated fails: the event for the instance `i-123` is not titled
`"Reapable Instance Discovered"`, and its title differs from the one for `i-456`. -/
theorem DataDog.instance_event_title_counterexample :
    ¬ (eventTitles (freshSink.NewReapableInstanceEvent liveAgent goTemplate specLinks sampleConf
          sampleInstance []).world = ["Reapable Instance Discovered"]
      ∧ eventTitles (freshSink.NewReapableInstanceEvent liveAgent goTemplate specLinks sampleConf
          sampleInstance []).world
        = eventTitles (freshSink.NewReapableInstanceEvent liveAgent goTemplate specLinks sampleConf
          otherInstance []).world) := by
  decide

/-! ## Theorems: template execution -/

theorem execItems_buf {D : Type} {wrap : Site → String → String}
    (fm : FuncMap) (d : D) (items : List (Item D)) (buf : String) :
    execItems wrap fm d items buf
      = (buf ++ (execItems wrap fm d items "").1, (execItems wrap fm d items "").2) := by
  induction items generalizing buf with
  | nil => simp [execItems]
  | cons it rest ih =>
    cases it with
    | text s =>
      simp only [execItems]
      rw [ih (buf ++ s), ih ("" ++ s)]
      simp [String.append_assoc]
    | action site eval =>
      simp only [execItems]
      cases hv : eval fm d with
      | error e => simp
      | ok v =>
        simp only []
        rw [ih (buf ++ v), ih ("" ++ v)]
        simp [String.append_assoc]

theorem execItems_text {D : Type} {wrap : Site → String → String}
    (fm : FuncMap) (d : D) (s : String) (rest : List (Item D)) :
    execItems wrap fm d (Item.text s :: rest) ""
      = (s ++ (execItems wrap fm d rest "").1, (execItems wrap fm d rest "").2) := by
  simp only [execItems]
  rw [execItems_buf]
  simp

theorem execItems_action_ok {D : Type} {wrap : Site → String → String} (fm : FuncMap) (d : D)
    {site : Site} (eval : FuncMap → D → Except String String) (v : String) (rest : List (Item D))
    (hv : eval fm d = Except.ok v) :
    execItems wrap fm d (Item.action site eval :: rest) ""
      = (v ++ (execItems wrap fm d rest "").1, (execItems wrap fm d rest "").2) := by
  simp only [execItems, hv]
  rw [execItems_buf]
  simp

theorem execItems_action_error {D : Type} {wrap : Site → String → String} (fm : FuncMap) (d : D)
    {site : Site} (eval : FuncMap → D → Except String String) (e : String) (rest : List (Item D))
    (hv : eval fm d = Except.error e) :
    execItems wrap fm d (Item.action site eval :: rest) "" = ("", some (wrap site e)) := by
  simp only [execItems, hv]

theorem Execute_buf {D : Type} {wrap : Site → String → String}
    (fm : FuncMap) (d : D) (nodes : List (Node D)) (buf : String) :
    Execute wrap fm d nodes buf = (buf ++
        (Execute wrap fm d nodes "").1, (Execute wrap fm d nodes "").2) := by
  induction nodes generalizing buf with
  | nil => simp [Execute]
  | cons n rest ih =>
    cases n with
    | item i =>
      simp only [Execute]
      rw [execItems_buf fm d [i] buf]
      cases he : (execItems wrap fm d [i] "").2 with
      | none =>
        have h0 : execItems wrap fm d [i] "" = ((execItems wrap fm d [i] "").1, none) := by rw [← he]
        rw [h0]
        simp only []
        rw [ih (buf ++ (execItems wrap fm d [i] "").1), ih (execItems wrap fm d [i] "").1]
        simp [String.append_assoc]
      | some e =>
        have h0 : execItems wrap fm d [i] "" = ((execItems wrap fm d [i] "").1, some e) := by rw [← he]
        rw [h0]
    | cond test body =>
      simp only [Execute]
      cases ht : test d with
      | false => simpa using ih buf
      | true =>
        simp only [if_true]
        rw [execItems_buf fm d body buf]
        cases he : (execItems wrap fm d body "").2 with
        | none =>
          have h0 : execItems wrap fm d body "" = ((execItems wrap fm d body "").1, none) := by rw [← he]
          rw [h0]
          simp only []
          rw [ih (buf ++ (execItems wrap fm d body "").1), ih (execItems wrap fm d body "").1]
          simp [String.append_assoc]
        | some e =>
          have h0 : execItems wrap fm d body "" = ((execItems wrap fm d body "").1, some e) := by
            rw [← he]
          rw [h0]

theorem Execute_text {D : Type} {wrap : Site → String → String}
    (fm : FuncMap) (d : D) (s : String) (rest : List (Node D)) :
    Execute wrap fm d (Node.item (Item.text s) :: rest) ""
      = (s ++ (Execute wrap fm d rest "").1, (Execute wrap fm d rest "").2) := by
  simp only [Execute, execItems]
  rw [Execute_buf]
  simp

theorem Execute_action_ok {D : Type} {wrap : Site → String → String} (fm : FuncMap) (d : D)
    {site : Site} (eval : FuncMap → D → Except String String) (v : String) (rest : List (Node D))
    (hv : eval fm d = Except.ok v) :
    Execute wrap fm d (Node.item (Item.action site eval) :: rest) ""
      = (v ++ (Execute wrap fm d rest "").1, (Execute wrap fm d rest "").2) := by
  simp only [Execute, execItems, hv]
  rw [Execute_buf]
  simp

theorem Execute_action_error {D : Type} {wrap : Site → String → String} (fm : FuncMap) (d : D)
    {site : Site} (eval : FuncMap → D → Except String String) (e : String) (rest : List (Node D))
    (hv : eval fm d = Except.error e) :
    Execute wrap fm d (Node.item (Item.action site eval) :: rest) "" = ("", some (wrap site e)) := by
  simp only [Execute, execItems, hv]

theorem Execute_cond_false {D : Type} {wrap : Site → String → String}
    (fm : FuncMap) (d : D) (test : D → Bool)
    (body : List (Item D)) (rest : List (Node D)) (ht : test d = false) :
    Execute wrap fm d (Node.cond test body :: rest) "" = Execute wrap fm d rest "" := by
  simp [Execute, ht]

theorem Execute_cond_true {D : Type} {wrap : Site → String → String}
    (fm : FuncMap) (d : D) (test : D → Bool)
    (body : List (Item D)) (rest : List (Node D)) (ht : test d = true) :
    Execute wrap fm d (Node.cond test body :: rest) ""
      = match (execItems wrap fm d body "").2 with
        | none => ((execItems wrap fm d body "").1 ++ (Execute wrap fm d rest "").1,
            (Execute wrap fm d rest "").2)
        | some e => ((execItems wrap fm d body "").1, some e) := by
  simp only [Execute, ht, if_true]
  cases he : (execItems wrap fm d body "").2 with
  | none =>
    have h0 : execItems wrap fm d body "" = ((execItems wrap fm d body "").1, none) := by rw [← he]
    rw [h0]
    simp only []
    rw [Execute_buf]
  | some e =>
    have h0 : execItems wrap fm d body "" = ((execItems wrap fm d body "").1, some e) := by rw [← he]
    rw [h0]

theorem append_ne_empty (s t : String) (hs : s ≠ "") : s ++ t ≠ "" := by
  intro h
  apply hs
  have hd : (s ++ t).data = [] := by rw [h]
  rw [String.data_append, List.append_eq_nil] at hd
  exact String.ext hd.1

theorem instance_buffer_ne_empty {wrap : Site → String → String}
    (fm : FuncMap) (d : InstanceEventData) :
    (Execute wrap fm d reapableInstanceTemplateDataDog "").1 ≠ "" := by
  rw [reapableInstanceTemplateDataDog, Execute_text]
  exact append_ne_empty _ _ (by decide)

theorem asg_buffer_ne_empty {wrap : Site → String → String} (fm : FuncMap) (d : ASGEventData) :
    (Execute wrap fm d reapableASGTemplateDataDog "").1 ≠ "" := by
  rw [reapableASGTemplateDataDog, Execute_text]
  exact append_ne_empty _ _ (by decide)

theorem clientCalls_NewReapableInstanceEvent_of_error (c : Client) (tt : TextTemplate)
    (fm : FuncMap) (Conf : Config) (d : DataDog) (i : Instance) (w : World) (e : String)
    (he : (Execute (tt.execError "reapable") fm ({ Instance := i, Config := Conf } :
      InstanceEventData) reapableInstanceTemplateDataDog "").2 = some e) :
    clientCalls (d.NewReapableInstanceEvent c tt fm Conf i w).world
      = clientCalls w ++ [Effect.call
          (d.Godspeed c (w ++ [Effect.logDebug "Template generation error" [e]])).1
          (Op.Event ("Reapable Instance " ++ i.ID ++ " Discovered")
            (Execute (tt.execError "reapable") fm { Instance := i, Config := Conf }
              reapableInstanceTemplateDataDog "").1 none none)] := by
  simp only [DataDog.NewReapableInstanceEvent, he]
  split <;> simp only [NewEvent_eq_send, clientCalls_send, clientCalls_log]

theorem clientCalls_NewReapableASGEvent_of_error (c : Client) (tt : TextTemplate)
    (fm : FuncMap) (Conf : Config) (d : DataDog) (a : AutoScalingGroup) (w : World) (e : String)
    (he : (Execute (tt.execError "reapable") fm ({ ASG := a, Config := Conf } : ASGEventData)
      reapableASGTemplateDataDog "").2 = some e) :
    clientCalls (d.NewReapableASGEvent c tt fm Conf a w).world
      = clientCalls w ++ [Effect.call
          (d.Godspeed c (w ++ [Effect.logDebug "Template generation error" [e]])).1
          (Op.Event "Reapable ASG Discovered"
            (Execute (tt.execError "reapable") fm { ASG := a, Config := Conf }
              reapableASGTemplateDataDog "").1 none none)] := by
  simp only [DataDog.NewReapableASGEvent, he]
  split <;> simp only [NewEvent_eq_send, clientCalls_send, clientCalls_log]

/-- C10: when executing the instance template fails, `NewReapableInstanceEvent` logs the error
that `Execute` returned and still makes its one `Event` call, with the usual title and with the
buffer as the failed execution left it as body; that buffer is not empty, and the call is made
on the handle that `Godspeed` returns after the log line, which is the cached client when there
is one.  The same holds for `NewReapableASGEvent` when executing the ASG template fails; each of
the two stands on its own failure alone. -/
theorem DataDog.failed_render_still_emits (c : Client) (tt : TextTemplate) (fm : FuncMap)
    (Conf : Config) (d : DataDog) (i : Instance) (a : AutoScalingGroup) (w : World) :
    (∀ e, (Execute (tt.execError "reapable") fm ({ Instance := i, Config := Conf } :
          InstanceEventData) reapableInstanceTemplateDataDog "").2 = some e →
      Effect.logDebug "Template generation error" [e]
        ∈ (d.NewReapableInstanceEvent c tt fm Conf i w).world
      ∧ clientCalls (d.NewReapableInstanceEvent c tt fm Conf i w).world
          = clientCalls w ++ [Effect.call
              (d.Godspeed c (w ++ [Effect.logDebug "Template generation error" [e]])).1
              (Op.Event ("Reapable Instance " ++ i.ID ++ " Discovered")
                (Execute (tt.execError "reapable") fm { Instance := i, Config := Conf }
                  reapableInstanceTemplateDataDog "").1 none none)]
      ∧ (∀ h, d.godspeed = some h →
          (d.Godspeed c (w ++ [Effect.logDebug "Template generation error" [e]])).1 = some h)
      ∧ (Execute (tt.execError "reapable") fm ({ Instance := i, Config := Conf } :
          InstanceEventData) reapableInstanceTemplateDataDog "").1 ≠ "")
    ∧ (∀ e, (Execute (tt.execError "reapable") fm ({ ASG := a, Config := Conf } :
          ASGEventData) reapableASGTemplateDataDog "").2 = some e →
      Effect.logDebug "Template generation error" [e]
        ∈ (d.NewReapableASGEvent c tt fm Conf a w).world
      ∧ clientCalls (d.NewReapableASGEvent c tt fm Conf a w).world
          = clientCalls w ++ [Effect.call
              (d.Godspeed c (w ++ [Effect.logDebug "Template generation error" [e]])).1
              (Op.Event "Reapable ASG Discovered"
                (Execute (tt.execError "reapable") fm { ASG := a, Config := Conf }
                  reapableASGTemplateDataDog "").1 none none)]
      ∧ (∀ h, d.godspeed = some h →
          (d.Godspeed c (w ++ [Effect.logDebug "Template generation error" [e]])).1 = some h)
      ∧ (Execute (tt.execError "reapable") fm ({ ASG := a, Config := Conf } :
          ASGEventData) reapableASGTemplateDataDog "").1 ≠ "") := by
  constructor
  · intro e he
    exact ⟨mem_NewReapableInstanceEvent_world c tt fm Conf d i w e he,
      clientCalls_NewReapableInstanceEvent_of_error c tt fm Conf d i w e he,
      fun h hd => Godspeed_fst_of_cached c d _ h hd, instance_buffer_ne_empty _ _⟩
  · intro e he
    exact ⟨mem_NewReapableASGEvent_world c tt fm Conf d a w e he,
      clientCalls_NewReapableASGEvent_of_error c tt fm Conf d a w e he,
      fun h hd => Godspeed_fst_of_cached c d _ h hd, asg_buffer_ne_empty _ _⟩

set_option maxRecDepth 100000 in
/-- Two failures.  When `MakeStopLink` fails, the instance execution stops at the `Stop` link:
the wrapped error is logged and the event carries the text written up to there.  When only
`MakeForceStopLink` fails, the instance execution succeeds and the ASG execution stops at the
`Force Scale` link, and the ASG event carries the text written up to there. -/
theorem DataDog.failed_render_still_emits_witness :
    ((Execute (goTemplate.execError "reapable") brokenStopLinks
        ({ Instance := sampleInstance, Config := sampleConf } : InstanceEventData)
        reapableInstanceTemplateDataDog "").2
      = some "template: reapable:10:10: executing \"reapable\" at <MakeStopLink .Config.TokenSecret .Config.HTTPApiURL .Instance.Region .Instance.ID>: error calling MakeStopLink: token: signing failed"
      ∧ (Execute (goTemplate.execError "reapable") brokenForceStopLinks
        ({ Instance := sampleInstance, Config := sampleConf } : InstanceEventData)
        reapableInstanceTemplateDataDog "").2 = none
      ∧ (Execute (goTemplate.execError "reapable") brokenForceStopLinks
        ({ ASG := sampleASG, Config := sampleConf } : ASGEventData)
        reapableASGTemplateDataDog "").2
      = some "template: reapable:9:17: executing \"reapable\" at <MakeForceStopLink .Config.TokenSecret .Config.HTTPApiURL .ASG.Region .ASG.ID>: error calling MakeForceStopLink: token: signing failed")
    ∧ (Effect.logDebug "Template generation error" ["template: reapable:10:10: executing \"reapable\" at <MakeStopLink .Config.TokenSecret .Config.HTTPApiURL .Instance.Region .Instance.ID>: error calling MakeStopLink: token: signing failed"]
        ∈ (freshSink.NewReapableInstanceEvent liveAgent goTemplate brokenStopLinks sampleConf
            sampleInstance []).world
      ∧ clientCalls (freshSink.NewReapableInstanceEvent liveAgent goTemplate brokenStopLinks
            sampleConf sampleInstance []).world
          = [Effect.call (some 0) (Op.Event "Reapable Instance i-123 Discovered"
              "%%%\nReaper has discovered an instance qualified as reapable: [i-123]() in region: [us-east-1](https://us-east-1.console.aws.amazon.com/ec2/v2/home?region=us-east-1).\\n\n\nState: running.\\n\nInstance Type: t2.micro.\\n\n\n\n[AWS Console URL]()\\n\n[Whitelist](http://reaper.local/whitelist?token=s3cr3t&region=us-east-1&id=i-123) this instance.\n[Stop]("
              none none)])
    ∧ (Effect.logDebug "Template generation error" ["template: reapable:9:17: executing \"reapable\" at <MakeForceStopLink .Config.TokenSecret .Config.HTTPApiURL .ASG.Region .ASG.ID>: error calling MakeForceStopLink: token: signing failed"]
        ∈ (freshSink.NewReapableASGEvent liveAgent goTemplate brokenForceStopLinks sampleConf
            sampleASG []).world
      ∧ clientCalls (freshSink.NewReapableASGEvent liveAgent goTemplate brokenForceStopLinks
            sampleConf sampleASG []).world
          = [Effect.call (some 0) (Op.Event "Reapable ASG Discovered"
              "%%%\nReaper has discovered an ASG qualified as reapable: [asg-1]() in region: [us-west-2](https://us-west-2.console.aws.amazon.com/ec2/v2/home?region=us-west-2).\\n\n\n\n[AWS Console URL]()\\n\n[Whitelist](http://reaper.local/whitelist?token=s3cr3t&region=us-west-2&id=asg-1) this ASG.\n[Terminate](http://reaper.local/terminate?token=s3cr3t&region=us-west-2&id=asg-1) this ASG.\\n\n[Scale](http://reaper.local/stop?token=s3cr3t&region=us-west-2&id=asg-1) this ASG to 0 instances\n[Force Scale]("
              none none)]) :=
  have hI := (DataDog.failed_render_still_emits liveAgent goTemplate brokenStopLinks sampleConf
    freshSink sampleInstance sampleASG []).1 _ (by decide)
  have hA := (DataDog.failed_render_still_emits liveAgent goTemplate brokenForceStopLinks
    sampleConf freshSink sampleInstance sampleASG []).2 _ (by decide)
  ⟨⟨by decide, by decide, by decide⟩, ⟨hI.1, hI.2.1⟩, ⟨hA.1, hA.2.1⟩⟩

/-! ## Theorems: texts that an execution cannot write -/

theorem not_infix_cons_of_ne (p c : Char) (ps r : List Char) (hc : c ≠ p)
    (hr : ¬ (p :: ps) <:+: r) : ¬ (p :: ps) <:+: c :: r := by
  rw [List.infix_cons_iff]
  rintro (h | h)
  · rw [List.prefix_cons_iff] at h
    rcases h with h | ⟨t, ht, _⟩
    · exact List.cons_ne_nil _ _ h
    · exact hc (List.head_eq_of_cons_eq ht).symm
  · exact hr h

theorem not_infix_text_append (p : Char) (ps s r : List Char) (hs : ∀ c ∈ s, c ≠ p)
    (hr : ¬ (p :: ps) <:+: r) : ¬ (p :: ps) <:+: s ++ r := by
  induction s with
  | nil => simpa using hr
  | cons c s ih =>
    rw [List.cons_append]
    exact not_infix_cons_of_ne p c ps _ (hs c (List.mem_cons_self _ _))
      (ih (fun x hx => hs x (List.mem_cons_of_mem _ hx)))

/-- A pattern that stands neither in `v` nor in `c :: r` does not stand in `v ++ c :: r` when
`c` is not one of its characters. -/
theorem not_infix_append_of_sep (pat v r : List Char) (c : Char) (hv : ¬ pat <:+: v)
    (hr : ¬ pat <:+: c :: r) (hc : c ∉ pat) : ¬ pat <:+: v ++ c :: r := by
  induction v with
  | nil => simpa using hr
  | cons a v ih =>
    rw [List.cons_append, List.infix_cons_iff]
    rintro (h | h)
    · have h2 : a :: v <+: a :: (v ++ c :: r) := ⟨c :: r, by simp⟩
      rcases List.prefix_or_prefix_of_prefix h h2 with h3 | h3
      · exact hv h3.isInfix
      · obtain ⟨t, ht⟩ := h3
        rw [← ht, ← List.cons_append, List.prefix_append_right_inj] at h
        cases t with
        | nil =>
          apply hv
          rw [← ht, List.append_nil]
        | cons x t =>
          rw [List.prefix_cons_iff] at h
          rcases h with h | ⟨t2, ht2, _⟩
          · exact List.cons_ne_nil _ _ h
          · have hx : x = c := List.head_eq_of_cons_eq ht2
            apply hc
            rw [← ht, hx]
            simp
    · exact ih (fun h3 => hv (List.infix_cons h3)) h

theorem not_infix_execItems {D : Type} (p : Char) (ps : List Char) {wrap : Site → String → String}
    (fm : FuncMap) (d : D)
    (items : List (Item D)) (r : List Char)
    (hsep : separatedItems (p :: ps) items = true)
    (hfine : ∀ it ∈ items, it.fine p ps fm d) (hr : ¬ (p :: ps) <:+: r) :
    ¬ (p :: ps) <:+: (execItems wrap fm d items "").1.data ++
      (match (execItems wrap fm d items "").2 with
        | none => r
        | some _ => []) := by
  induction items with
  | nil => simpa [execItems] using hr
  | cons it rest ih =>
    have ihr := ih (by cases it <;> simp_all [separatedItems])
      (fun x hx => hfine x (List.mem_cons_of_mem _ hx))
    have hit := hfine it (List.mem_cons_self _ _)
    cases it with
    | text s =>
      rw [execItems_text]
      simp only [String.data_append, List.append_assoc]
      exact not_infix_text_append p ps _ _ hit ihr
    | action site eval =>
      cases hv : eval fm d with
      | error e =>
        rw [execItems_action_error fm d eval e rest hv]
        simp
      | ok v =>
        rw [execItems_action_ok fm d eval v rest hv]
        simp only [String.data_append, List.append_assoc]
        cases rest with
        | nil => simp [separatedItems] at hsep
        | cons it2 rest2 =>
          cases it2 with
          | action site2 eval2 => simp [separatedItems] at hsep
          | text s =>
            rw [execItems_text] at ihr ⊢
            simp only [String.data_append, List.append_assoc] at ihr ⊢
            cases hs : s.data with
            | nil => simp [separatedItems, headClear, hs] at hsep
            | cons c s2 =>
              rw [hs] at ihr
              rw [List.cons_append] at ihr ⊢
              have hc : c ∉ p :: ps := by
                simp only [separatedItems, headClear, hs, Bool.and_eq_true,
                  decide_eq_true_eq] at hsep
                exact hsep.1
              exact not_infix_append_of_sep _ _ _ c (hit v hv) ihr hc

/-- An execution whose literal texts lack the first character of the pattern, whose printed
values lack the pattern and whose actions are each followed by a text starting outside the
pattern writes a buffer without the pattern, whether it ends in an error or not. -/
theorem not_infix_Execute {D : Type} (p : Char) (ps : List Char) {wrap : Site → String → String}
    (fm : FuncMap) (d : D)
    (nodes : List (Node D)) (hsep : separated (p :: ps) nodes = true)
    (hfine : ∀ n ∈ nodes, n.fine p ps fm d) :
    ¬ (p :: ps) <:+: (Execute wrap fm d nodes "").1.data := by
  induction nodes with
  | nil => simp [Execute]
  | cons n rest ih =>
    have hn := hfine n (List.mem_cons_self _ _)
    have hrest : separated (p :: ps) rest = true := by
      cases n with
      | item i => cases i <;> simp_all [separated]
      | cond test body => simp_all [separated]
    have ihr := ih hrest (fun x hx => hfine x (List.mem_cons_of_mem _ hx))
    cases n with
    | item i =>
      cases i with
      | text s =>
        rw [Execute_text]
        simp only [String.data_append]
        exact not_infix_text_append p ps _ _ hn ihr
      | action site eval =>
        cases hv : eval fm d with
        | error e =>
          rw [Execute_action_error fm d eval e rest hv]
          simp
        | ok v =>
          rw [Execute_action_ok fm d eval v rest hv]
          simp only [String.data_append]
          cases rest with
          | nil => simp [separated] at hsep
          | cons n2 rest2 =>
            cases n2 with
            | cond test2 body2 => simp [separated] at hsep
            | item i2 =>
              cases i2 with
              | action site2 eval2 => simp [separated] at hsep
              | text s =>
                rw [Execute_text] at ihr ⊢
                simp only [String.data_append] at ihr ⊢
                cases hs : s.data with
                | nil => simp [separated, headClear, hs] at hsep
                | cons c s2 =>
                  rw [hs] at ihr
                  rw [List.cons_append] at ihr ⊢
                  have hc : c ∉ p :: ps := by
                    simp only [separated, headClear, hs, Bool.and_eq_true,
                      decide_eq_true_eq] at hsep
                    exact hsep.1
                  exact not_infix_append_of_sep _ _ _ c (hn v hv) ihr hc
    | cond test body =>
      cases ht : test d with
      | false =>
        rw [Execute_cond_false fm d test body rest ht]
        exact ihr
      | true =>
        rw [Execute_cond_true fm d test body rest ht]
        have hb := @not_infix_execItems D p ps wrap fm d body (Execute wrap fm d rest "").1.data
          (by simp_all [separated]) (hn ht) ihr
        cases he : (execItems wrap fm d body "").2 with
        | none =>
          rw [he] at hb
          simpa only [String.data_append] using hb
        | some e =>
          rw [he] at hb
          simpa using hb

/-! ## Theorems: the body of the instance event -/

theorem eventBodies_append (u v : World) :
    eventBodies (u ++ v) = eventBodies u ++ eventBodies v := by
  induction u with
  | nil => rfl
  | cons e u ih =>
    cases e with
    | call g op => cases op <;> simp [eventBodies, ih]
    | _ => simp [eventBodies, ih]

theorem eventBodies_clientCalls (w : World) : eventBodies (clientCalls w) = eventBodies w := by
  induction w with
  | nil => rfl
  | cons e w ih =>
    cases e with
    | call g op =>
      cases op <;> simp [eventBodies, clientCalls, List.filter_cons, Effect.isCall] <;>
        exact ih
    | _ => simpa [eventBodies, clientCalls, List.filter_cons, Effect.isCall] using ih

theorem eventBodies_NewReapableInstanceEvent (c : Client) (tt : TextTemplate) (fm : FuncMap)
    (Conf : Config)
    (d : DataDog) (i : Instance) (w : World) :
    eventBodies (d.NewReapableInstanceEvent c tt fm Conf i w).world
      = eventBodies w ++
        [(Execute (tt.execError "reapable") fm { Instance := i, Config := Conf }
            reapableInstanceTemplateDataDog "").1] := by
  obtain ⟨g, hg, _⟩ := clientCalls_NewReapableInstanceEvent c tt fm Conf d i w
  rw [← eventBodies_clientCalls, hg, eventBodies_append, eventBodies_clientCalls]
  rfl

theorem Execute_pure {D : Type} {wrap : Site → String → String}
    (fm : FuncMap) (d : D) {site : Site} (f : D → String) (rest : List (Node D)) :
    Execute wrap fm d (Node.item (Item.action site (fun _ x => Except.ok (f x))) :: rest) ""
      = (f d ++ (Execute wrap fm d rest "").1, (Execute wrap fm d rest "").2) :=
  Execute_action_ok fm d _ (f d) rest rfl

theorem execItems_pure {D : Type} {wrap : Site → String → String}
    (fm : FuncMap) (d : D) {site : Site} (f : D → String) (rest : List (Item D)) :
    execItems wrap fm d (Item.action site (fun _ x => Except.ok (f x)) :: rest) ""
      = (f d ++ (execItems wrap fm d rest "").1, (execItems wrap fm d rest "").2) :=
  execItems_action_ok fm d _ (f d) rest rfl

theorem instance_buffer_head {wrap : Site → String → String}
    (fm : FuncMap) (d : InstanceEventData) :
    (Execute wrap fm d reapableInstanceTemplateDataDog "").1 =
    "%%%\nReaper has discovered an instance qualified as reapable: " ++
    ((if truth d.Instance.Name = true then "\"" ++ (d.Instance.Name ++ "\" ") else "") ++
    ("[" ++ (d.Instance.ID ++ ("](" ++ (d.Instance.AWSConsoleURL ++ (") in region: [" ++
    (d.Instance.Region ++ ("](https://" ++ (d.Instance.Region ++
    (".console.aws.amazon.com/ec2/v2/home?region=" ++ (d.Instance.Region ++ (").\\n\n" ++
    ((if d.Instance.Owned = true then "Owned by " ++ (d.Instance.Owner ++ ".\\n") else "") ++
    (Execute wrap fm d (reapableInstanceTemplateDataDog.drop 14) "").1))))))))))))) := by
  cases hN : truth d.Instance.Name <;> cases hO : d.Instance.Owned <;>
    simp only [reapableInstanceTemplateDataDog, Execute_text, Execute_pure, execItems_text,
      execItems_pure, Execute_cond_true, Execute_cond_false, hN, hO, execItems, List.drop,
      String.append_empty, String.empty_append, if_true, if_false, Bool.false_eq_true,
      String.append_assoc]

theorem contains_append_right (s t sub : String) (h : contains t sub) : contains (s ++ t) sub := by
  unfold contains at *
  rw [String.data_append]
  exact h.trans (List.suffix_append _ _).isInfix

theorem contains_self_append (sub t : String) : contains (sub ++ t) sub := by
  unfold contains
  rw [String.data_append]
  exact (List.prefix_append _ _).isInfix

theorem occurrencesIn_append_le (sub s t : List Char) :
    occurrencesIn sub t ≤ occurrencesIn sub (s ++ t) := by
  induction s with
  | nil => simp
  | cons c s ih =>
    rw [List.cons_append, occurrencesIn]
    omega

theorem occurrencesIn_self_append (sub t : List Char) (h : sub ≠ []) :
    occurrencesIn sub t + 1 ≤ occurrencesIn sub (sub ++ t) := by
  cases sub with
  | nil => exact absurd rfl h
  | cons c cs =>
    have h1 : c :: cs <+: c :: (cs ++ t) := ⟨t, by simp⟩
    have h2 := occurrencesIn_append_le (c :: cs) cs t
    rw [List.cons_append, occurrencesIn, if_pos h1]
    omega

theorem fine_of_clean {x : String} (p : Char) (ps : List Char) (hx : ¬ (p :: ps) <:+: x.data)
    (v : String) (hv : (Except.ok x : Except String String) = Except.ok v) :
    ¬ (p :: ps) <:+: v.data := by
  cases hv
  exact hx

theorem instance_buffer_without_owner {wrap : Site → String → String}
    (fm : FuncMap) (d : InstanceEventData) (hO : d.Instance.Owned = false)
   (h1 : ¬ contains d.Instance.Name "Owned by")
   (h2 : ¬ contains d.Instance.ID "Owned by")
   (h3 : ¬ contains d.Instance.Region "Owned by")
   (h4 : ¬ contains d.Instance.AWSConsoleURL "Owned by")
   (h5 : ¬ contains d.Instance.State "Owned by")
   (h6 : ¬ contains d.Instance.InstanceType "Owned by")
   (h7 : ¬ contains d.Instance.PublicIPAddress "Owned by")
   (h8 : ∀ v, fm.MakeWhitelistLink d.Config.TokenSecret d.Config.HTTPApiURL d.Instance.Region
      d.Instance.ID = Except.ok v → ¬ contains v "Owned by")
   (h9 : ∀ v, fm.MakeStopLink d.Config.TokenSecret d.Config.HTTPApiURL d.Instance.Region
      d.Instance.ID = Except.ok v → ¬ contains v "Owned by")
   (h10 : ∀ v, fm.MakeTerminateLink d.Config.TokenSecret d.Config.HTTPApiURL d.Instance.Region
      d.Instance.ID = Except.ok v → ¬ contains v "Owned by") :
   ¬ contains (Execute wrap fm d reapableInstanceTemplateDataDog "").1 "Owned by" := by
  apply not_infix_Execute 'O' "wned by".data fm d reapableInstanceTemplateDataDog (by decide)
  rw [reapableInstanceTemplateDataDog]
  repeat' (refine List.forall_mem_cons.mpr ⟨?_, ?_⟩)
  all_goals dsimp only [Node.fine, Item.fine]
  all_goals first
    | decide
    | exact fine_of_clean _ _ h1
    | exact fine_of_clean _ _ h2
    | exact fine_of_clean _ _ h3
    | exact fine_of_clean _ _ h4
    | exact fine_of_clean _ _ h5
    | exact fine_of_clean _ _ h6
    | exact fine_of_clean _ _ h7
    | exact h8
    | exact h9
    | exact h10
    | (intro ht; rw [hO] at ht; cases ht)
    | (intro _
       repeat' (refine List.forall_mem_cons.mpr ⟨?_, ?_⟩)
       all_goals first
        | decide
        | exact fine_of_clean _ _ h1
        | exact fine_of_clean _ _ h4
        | exact fine_of_clean _ _ h7
        | (intro x hx; exact absurd hx (List.not_mem_nil _))
        | (intro hx; exact absurd hx (List.not_mem_nil _)))

theorem instance_buffer_occurrences {wrap : Site → String → String}
    (fm : FuncMap) (d : InstanceEventData)
    (hID : d.Instance.ID ≠ "") (hR : d.Instance.Region ≠ "") :
    1 ≤ occurrences (Execute wrap fm d reapableInstanceTemplateDataDog "").1 d.Instance.ID
    ∧ 3 ≤ occurrences (Execute wrap fm d
        reapableInstanceTemplateDataDog "").1 d.Instance.Region := by
  have hID2 : d.Instance.ID.data ≠ [] := fun h => hID (String.ext h)
  have hR2 : d.Instance.Region.data ≠ [] := fun h => hR (String.ext h)
  rw [instance_buffer_head]
  simp only [occurrences, String.data_append]
  constructor
  · refine le_trans ?_ (occurrencesIn_append_le _ _ _)
    refine le_trans ?_ (occurrencesIn_append_le _ _ _)
    refine le_trans ?_ (occurrencesIn_append_le _ _ _)
    refine le_trans ?_ (occurrencesIn_self_append _ _ hID2)
    omega
  · refine le_trans ?_ (occurrencesIn_append_le _ _ _)
    refine le_trans ?_ (occurrencesIn_append_le _ _ _)
    refine le_trans ?_ (occurrencesIn_append_le _ _ _)
    refine le_trans ?_ (occurrencesIn_append_le _ _ _)
    refine le_trans ?_ (occurrencesIn_append_le _ _ _)
    refine le_trans ?_ (occurrencesIn_append_le _ _ _)
    refine le_trans ?_ (occurrencesIn_append_le _ _ _)
    refine le_trans ?_ (occurrencesIn_self_append _ _ hR2)
    refine Nat.succ_le_succ ?_
    refine le_trans ?_ (occurrencesIn_append_le _ _ _)
    refine le_trans ?_ (occurrencesIn_self_append _ _ hR2)
    refine Nat.succ_le_succ ?_
    refine le_trans ?_ (occurrencesIn_append_le _ _ _)
    refine le_trans ?_ (occurrencesIn_self_append _ _ hR2)
    omega

theorem instance_buffer_contains {wrap : Site → String → String}
    (fm : FuncMap) (d : InstanceEventData) :
    contains (Execute wrap fm d reapableInstanceTemplateDataDog "").1 ("[" ++ d.Instance.ID ++ "]")
    ∧ contains (Execute wrap fm d reapableInstanceTemplateDataDog "").1 d.Instance.Region
    ∧ (d.Instance.Owned = true → contains (Execute wrap fm d reapableInstanceTemplateDataDog "").1
        ("Owned by " ++ d.Instance.Owner ++ ".")) := by
  rw [instance_buffer_head]
  refine ⟨?_, ?_, ?_⟩
  · apply contains_append_right
    apply contains_append_right
    have h : ∀ t : String, "[" ++ (d.Instance.ID ++ ("](" ++ t))
        = ("[" ++ d.Instance.ID ++ "]") ++ ("(" ++ t) := by
      intro t
      have h2 : ("](" : String) = "]" ++ "(" := by decide
      rw [h2]
      simp only [String.append_assoc]
    rw [h]
    exact contains_self_append _ _
  · iterate 7 apply contains_append_right
    exact contains_self_append _ _
  · intro hO
    rw [if_pos hO]
    iterate 13 apply contains_append_right
    have h : ∀ t : String, "Owned by " ++ (d.Instance.Owner ++ ".\\n") ++ t
        = ("Owned by " ++ d.Instance.Owner ++ ".") ++ ("\\n" ++ t) := by
      intro t
      have h2 : (".\\n" : String) = "." ++ "\\n" := by decide
      rw [h2]
      simp only [String.append_assoc]
    rw [h]
    exact contains_self_append _ _

/-- C7, as the code has it: for every instance with a non-empty ID and region, the body of the
event that `DataDog.NewReapableInstanceEvent` sends is the buffer of the template execution, and
the ID starts at one position of it at least and the region at three positions at least (the
link text, the host of the console URL and its `region` parameter). -/
theorem DataDog.instance_body_mentions (c : Client) (tt : TextTemplate) (fm : FuncMap)
    (Conf : Config) (d : DataDog)
    (i : Instance) (w : World) (hID : i.ID ≠ "") (hR : i.Region ≠ "") :
    eventBodies (d.NewReapableInstanceEvent c tt fm Conf i w).world
      = eventBodies w ++
        [(Execute (tt.execError "reapable") fm { Instance := i, Config := Conf }
            reapableInstanceTemplateDataDog "").1]
    ∧ 1 ≤ occurrences
        (Execute (tt.execError "reapable") fm { Instance := i, Config := Conf }
            reapableInstanceTemplateDataDog "").1 i.ID
    ∧ 3 ≤ occurrences
        (Execute (tt.execError "reapable") fm { Instance := i, Config := Conf }
            reapableInstanceTemplateDataDog "").1
        i.Region :=
  ⟨eventBodies_NewReapableInstanceEvent c tt fm Conf d i w,
    instance_buffer_occurrences fm { Instance := i, Config := Conf } hID hR⟩

/-- For the instance `i-123` in `us-east-1` the body has the ID once at least and the region
three times at least. -/
theorem DataDog.instance_body_mentions_witness :
    (sampleInstance.ID ≠ "" ∧ sampleInstance.Region ≠ "")
    ∧ eventBodies (freshSink.NewReapableInstanceEvent liveAgent goTemplate specLinks sampleConf
        sampleInstance []).world
      = eventBodies [] ++
        [(Execute (goTemplate.execError "reapable") specLinks
            { Instance := sampleInstance, Config := sampleConf }
          reapableInstanceTemplateDataDog "").1]
    ∧ 1 ≤ occurrences
        (Execute (goTemplate.execError "reapable") specLinks { Instance := sampleInstance, Config :=
            sampleConf }
          reapableInstanceTemplateDataDog "").1 sampleInstance.ID
    ∧ 3 ≤ occurrences
        (Execute (goTemplate.execError "reapable") specLinks { Instance := sampleInstance, Config :=
            sampleConf }
          reapableInstanceTemplateDataDog "").1 sampleInstance.Region :=
  ⟨⟨by decide, by decide⟩,
    DataDog.instance_body_mentions liveAgent goTemplate specLinks
        sampleConf freshSink sampleInstance []
      (by decide) (by decide)⟩

set_option maxRecDepth 100000 in
/-- C7 as stated fails: in the body sent for the instance `i-123` in `us-east-1` the ID and the
region do not each occur exactly once. -/
theorem DataDog.instance_body_mentions_counterexample :
    ¬ (∀ b ∈ eventBodies (freshSink.NewReapableInstanceEvent liveAgent goTemplate specLinks
        sampleConf
          sampleInstance []).world,
        occurrences b sampleInstance.ID = 1 ∧ occurrences b sampleInstance.Region = 1) := by
  decide

/-- C8: the body of the event that `DataDog.NewReapableInstanceEvent` sends is the buffer of the
template execution.  For an instance that is not owned and whose name, ID, region, console URL,
state, type, public IP and link-builder results do not contain `Owned by`, it contains the ID in
square brackets and the region, and does not contain `Owned by`; for an instance that is owned
it contains `Owned by `, the owner and a full stop. -/
theorem DataDog.instance_body_owner_line (c : Client) (tt : TextTemplate) (fm : FuncMap)
    (Conf : Config)
    (d : DataDog) (i : Instance) (w : World) :
    eventBodies (d.NewReapableInstanceEvent c tt fm Conf i w).world
      = eventBodies w ++
        [(Execute (tt.execError "reapable") fm { Instance := i, Config := Conf }
            reapableInstanceTemplateDataDog "").1]
    ∧ (i.Owned = false →
        ¬ contains i.Name "Owned by" → ¬ contains i.ID "Owned by" →
        ¬ contains i.Region "Owned by" → ¬ contains i.AWSConsoleURL "Owned by" →
        ¬ contains i.State "Owned by" → ¬ contains i.InstanceType "Owned by" →
        ¬ contains i.PublicIPAddress "Owned by" →
        (∀ v, fm.MakeWhitelistLink Conf.TokenSecret Conf.HTTPApiURL i.Region i.ID = Except.ok v →
          ¬ contains v "Owned by") →
        (∀ v, fm.MakeStopLink Conf.TokenSecret Conf.HTTPApiURL i.Region i.ID = Except.ok v →
          ¬ contains v "Owned by") →
        (∀ v, fm.MakeTerminateLink Conf.TokenSecret Conf.HTTPApiURL i.Region i.ID = Except.ok v →
          ¬ contains v "Owned by") →
        contains (Execute (tt.execError "reapable") fm { Instance := i, Config := Conf }
            reapableInstanceTemplateDataDog "").1 ("[" ++ i.ID ++ "]")
        ∧ contains (Execute (tt.execError "reapable") fm { Instance := i, Config := Conf }
            reapableInstanceTemplateDataDog "").1 i.Region
        ∧ ¬ contains (Execute (tt.execError "reapable") fm { Instance := i, Config := Conf }
            reapableInstanceTemplateDataDog "").1 "Owned by")
    ∧ (i.Owned = true →
        contains (Execute (tt.execError "reapable") fm { Instance := i, Config := Conf }
            reapableInstanceTemplateDataDog "").1 ("Owned by " ++ i.Owner ++ ".")) := by
  have hc := @instance_buffer_contains (tt.execError "reapable") fm
    { Instance := i, Config := Conf }
  refine ⟨eventBodies_NewReapableInstanceEvent c tt fm Conf d i w, ?_, hc.2.2⟩
  intro hO h1 h2 h3 h4 h5 h6 h7 h8 h9 h10
  exact ⟨hc.1, hc.2.1,
    instance_buffer_without_owner fm { Instance := i, Config := Conf } hO h1 h2 h3 h4 h5 h6 h7
      h8 h9 h10⟩

/-- The example of the spec: the body for the unowned instance `i-123` in `us-east-1` contains
`[i-123]` and `us-east-1` and no `Owned by`; the body for an owned instance has the owner line. -/
theorem DataDog.instance_body_owner_line_witness :
    (contains (Execute (goTemplate.execError "reapable") specLinks
        { Instance := sampleInstance, Config := sampleConf }
        reapableInstanceTemplateDataDog "").1 "[i-123]"
      ∧ contains (Execute (goTemplate.execError "reapable") specLinks
          { Instance := sampleInstance, Config := sampleConf }
        reapableInstanceTemplateDataDog "").1 "us-east-1"
      ∧ ¬ contains (Execute (goTemplate.execError "reapable") specLinks
          { Instance := sampleInstance, Config := sampleConf }
        reapableInstanceTemplateDataDog "").1 "Owned by")
    ∧ contains (Execute (goTemplate.execError "reapable") specLinks
        { Instance := otherInstance, Config := sampleConf }
        reapableInstanceTemplateDataDog "").1 "Owned by ops@example.com." :=
  ⟨(DataDog.instance_body_owner_line liveAgent goTemplate specLinks
      sampleConf freshSink sampleInstance
      []).2.1 rfl (by decide) (by decide) (by decide) (by decide) (by decide) (by decide)
      (by decide)
      (fun v hv => by cases hv; decide) (fun v hv => by cases hv; decide)
      (fun v hv => by cases hv; decide),
    (DataDog.instance_body_owner_line liveAgent goTemplate specLinks
        sampleConf freshSink otherInstance
      []).2.2 rfl⟩

end Reaper
